import Mathlib

/-!
Verification development for the WebMiniGame 2D engine runtime
(GameObject–Component–System architecture).

The definitions below are shallow embeddings of the TypeScript source:
`src/engine/core/RenderContext.ts` (the `Engine` registry/scheduler),
`src/engine/core/Component.ts`, `src/engine/core/GameObject.ts`,
`src/engine/core/ComponentSystem.ts`, `src/engine/system/PhysicsSystem.ts`,
`src/engine/components/BoxCollider.ts`, `CircleCollider.ts`,
`Rigidbody` and `Transform`.  JavaScript objects are modelled by records,
object identity by numeric ids, `Map`s by association lists that preserve
insertion order, and in-place mutation by explicit state passing.
-/

namespace EngineReg

/-- State of one attached component: mirrors the `Component` base class
fields `componentId`, `getTypeName()`, `enabled` and the `gameObject`
back-reference (kept as the owner's id). -/
structure Comp where
  componentId : Nat
  typeName : String
  enabled : Bool
  goId : Nat
deriving DecidableEq, Repr

/-- The per-GameObject state the registry cares about (`GameObject.id`,
`GameObject.isActive`). -/
structure GORec where
  id : Nat
  isActive : Bool
deriving DecidableEq, Repr

/-- A registered system: its `Map` key, `getComponentTypes()` and
`getPriority()` (`ComponentSystem.ts`). -/
structure SystemRec where
  name : String
  componentTypes : List String
  priority : Int
deriving DecidableEq, Repr

/-- The `Engine` singleton's registry state (`RenderContext.ts`, class
`Engine`): `systems` (a `Map`, kept in insertion order),
`systemsPrioritySorted`, `componentMap` and `activeComponentsCache`
(type name to component ids, insertion order), the heap of component
objects, and the `gameObjects` map. -/
structure EngineState where
  systems : List SystemRec
  systemsPrioritySorted : List SystemRec
  componentMap : List (String × List Nat)
  activeComponentsCache : List (String × List Nat)
  componentStore : List Comp
  gameObjects : List GORec
deriving Repr

/-- Update-or-append for an association list, preserving the position of an
existing key exactly as a JavaScript `Map.set` does. -/
def alSet (k : String) (v : List Nat) : List (String × List Nat) → List (String × List Nat)
  | [] => [(k, v)]
  | (k', v') :: rest => if k' = k then (k, v) :: rest else (k', v') :: alSet k v rest

/-- Dereference a component id in the heap. -/
def getComp (st : EngineState) (cid : Nat) : Option Comp :=
  st.componentStore.find? (fun c => c.componentId == cid)

/-- The truth value of `component.gameObject?.isActive` for an owner id:
a missing GameObject is falsy. -/
def goActive (st : EngineState) (goId : Nat) : Bool :=
  match st.gameObjects.find? (fun g => g.id == goId) with
  | some g => g.isActive
  | none => false

/-- The active predicate `component.enabled && component.gameObject?.isActive`
used throughout `RenderContext.ts`. -/
def isActiveComponent (st : EngineState) (c : Comp) : Bool :=
  c.enabled && goActive st c.goId

/-- Engine.addToActiveCache: append to the cache pool if the pool exists and
does not already contain the component (`cache && !cache.includes(component)`). -/
def addToActiveCache (st : EngineState) (tn : String) (cid : Nat) : EngineState :=
  match List.lookup tn st.activeComponentsCache with
  | some cache =>
      if cid ∈ cache then st
      else { st with activeComponentsCache := alSet tn (cache ++ [cid]) st.activeComponentsCache }
  | none => st

/-- Engine.removeFromActiveCache: `indexOf` + `splice` removes the first
occurrence when present. -/
def removeFromActiveCache (st : EngineState) (tn : String) (cid : Nat) : EngineState :=
  match List.lookup tn st.activeComponentsCache with
  | some cache => { st with activeComponentsCache := alSet tn (cache.erase cid) st.activeComponentsCache }
  | none => st

/-- Engine.registerComponent: create the `componentMap` pool and the
`activeComponentsCache` pool if the type has none, append the component to
the pool, and append it to the active cache when the active predicate holds. -/
def registerComponent (st : EngineState) (c : Comp) : EngineState :=
  let tn := c.typeName
  let st1 :=
    match List.lookup tn st.componentMap with
    | some _ => st
    | none =>
        { st with componentMap := alSet tn [] st.componentMap,
                  activeComponentsCache := alSet tn [] st.activeComponentsCache }
  let comps := (List.lookup tn st1.componentMap).getD []
  let st2 :=
    { st1 with componentMap := alSet tn (comps ++ [c.componentId]) st1.componentMap,
               componentStore := st1.componentStore ++ [c] }
  if c.enabled && goActive st2 c.goId then addToActiveCache st2 tn c.componentId else st2

/-- Engine.unregisterComponent: remove by identity from the pool, and only
when it was found there, also from the active cache. -/
def unregisterComponent (st : EngineState) (c : Comp) : EngineState :=
  let tn := c.typeName
  match List.lookup tn st.componentMap with
  | some comps =>
      if c.componentId ∈ comps then
        removeFromActiveCache
          { st with componentMap := alSet tn (comps.erase c.componentId) st.componentMap }
          tn c.componentId
      else st
  | none => st

/-- Engine.onComponentStateChanged: re-evaluate the active predicate and move
the component into or out of the active cache.  Note: no call site exists
anywhere in the repository. -/
def onComponentStateChanged (st : EngineState) (cid : Nat) : EngineState :=
  match getComp st cid with
  | none => st
  | some c =>
      if c.enabled && goActive st c.goId then addToActiveCache st c.typeName cid
      else removeFromActiveCache st c.typeName cid

/-- Component.setEnabled (`Component.ts`): early-return when unchanged,
otherwise flip the flag and invoke the `onEnable`/`onDisable` hooks (which
are no-ops on the base class).  It performs no Engine notification. -/
def setEnabled (st : EngineState) (cid : Nat) (value : Bool) : EngineState :=
  match getComp st cid with
  | none => st
  | some c =>
      if c.enabled = value then st
      else
        { st with componentStore :=
            st.componentStore.map (fun c' =>
              if c'.componentId == cid then { c' with enabled := value } else c') }

/-- GameObject.setActive (`GameObject.ts`): early-return when unchanged,
otherwise flip `isActive` and invoke each component's hooks.  It performs
no Engine cache reconciliation. -/
def setActive (st : EngineState) (goId : Nat) (value : Bool) : EngineState :=
  match st.gameObjects.find? (fun g => g.id == goId) with
  | none => st
  | some g =>
      if g.isActive = value then st
      else
        { st with gameObjects :=
            st.gameObjects.map (fun g' => if g'.id == goId then { g' with isActive := value } else g') }

/-- Engine.registerGameObject. -/
def registerGameObject (st : EngineState) (g : GORec) : EngineState :=
  { st with gameObjects := st.gameObjects ++ [g] }

/-- The `componentTypes.forEach` body of Engine.registerSystem: create empty
`componentMap` and `activeComponentsCache` pools for each declared type whose
pool is absent, and leave existing pools untouched. -/
def ensurePools : List String → EngineState → EngineState
  | [], st => st
  | t :: ts, st =>
      let st' :=
        if (List.lookup t st.componentMap).isSome then st
        else
          { st with componentMap := alSet t [] st.componentMap,
                    activeComponentsCache := alSet t [] st.activeComponentsCache }
      ensurePools ts st'

/-- The `systems.set(name, system)` step: JavaScript `Map.set` keeps the
position of an existing key and appends a new one. -/
def upsertSystem (sys : SystemRec) : List SystemRec → List SystemRec
  | [] => [sys]
  | s :: rest => if s.name = sys.name then sys :: rest else s :: upsertSystem sys rest

/-- Engine.updateSystemPriority: `Array.from(systems.values()).sort((a, b) =>
a.getPriority() - b.getPriority())`.  The JavaScript sort is stable and
ascending; `List.insertionSort` with `≤` is its exact counterpart. -/
def updateSystemPriority (systems : List SystemRec) : List SystemRec :=
  List.insertionSort (fun a b => a.priority ≤ b.priority) systems

/-- Engine.registerSystem (`RenderContext.ts` lines 195-214): store the
system, ensure pools for its declared component types, and recompute the
priority-sorted list. -/
def registerSystem (st : EngineState) (sys : SystemRec) : EngineState :=
  let st1 := { st with systems := upsertSystem sys st.systems }
  let st2 := ensurePools sys.componentTypes st1
  { st2 with systemsPrioritySorted := updateSystemPriority st2.systems }

/-- The per-system batch gathering of the frame loop (`RenderContext.ts`
lines 421-429): concatenate the active caches of the system's declared
types in declaration order. -/
def gatherBatch (st : EngineState) (sys : SystemRec) : List Nat :=
  sys.componentTypes.flatMap (fun t => (List.lookup t st.activeComponentsCache).getD [])

/-- One frame-loop iteration's system phase (`RenderContext.ts` lines
420-439): walk `systemsPrioritySorted` in order and run each system whose
gathered batch is non-empty; the executed systems are returned in
execution order. -/
def runFrame (st : EngineState) : List SystemRec :=
  st.systemsPrioritySorted.filterMap (fun sys =>
    if gatherBatch st sys ≠ [] then some sys else none)

/-- Trace of a multi-frame run: frame `n` executes against the engine state
`states n` (systems mutate the world between frames), tagging every executed
system update with its frame number. -/
def multiFrameTrace (states : Nat → EngineState) (k : Nat) : List (Nat × SystemRec) :=
  (List.range k).flatMap (fun n => (runFrame (states n)).map (fun s => (n, s)))

/-- The empty engine. -/
def emptyEngine : EngineState :=
  { systems := [], systemsPrioritySorted := [], componentMap := [],
    activeComponentsCache := [], componentStore := [], gameObjects := [] }

/-- Scenario for the active-cache claim: one active GameObject (id 0)
carrying one enabled `Rigidbody` component (id 0), registered with the
engine, after which the component is disabled through `Component.setEnabled`. -/
def cacheScenario : EngineState :=
  setEnabled
    (registerComponent (registerGameObject emptyEngine ⟨0, true⟩)
      ⟨0, "Rigidbody", true, 0⟩)
    0 false

end EngineReg

/-- C1: evaluation of the code at the failing input.  After
`Component.setEnabled(false)` on a registered component of an active
GameObject, the component is disabled yet still sits in
`activeComponentsCache["Rigidbody"]`: no code path invokes
`Engine.onComponentStateChanged`, so the claimed biconditional
`c ∈ activeComponentsCache[typeName(c)] ⟺ c.enabled ∧ c.gameObject.isActive`
fails after the mutation settles. -/
theorem active_cache_stale_after_setEnabled :
    List.lookup "Rigidbody" EngineReg.cacheScenario.activeComponentsCache = some [0] ∧
    (EngineReg.getComp EngineReg.cacheScenario 0).map EngineReg.Comp.enabled = some false ∧
    EngineReg.goActive EngineReg.cacheScenario 0 = true := by
  decide

namespace EngineReg

/-- Lookup through `alSet`: the written key reads back the written value and
every other key is untouched. -/
theorem alSet_lookup (k T : String) (v : List Nat) (m : List (String × List Nat)) :
    List.lookup T (alSet k v m) = if T = k then some v else List.lookup T m := by
  induction m with
  | nil =>
      by_cases h : T = k
      · simp [alSet, List.lookup, h]
      · have hb : (T == k) = false := beq_eq_false_iff_ne.mpr h
        simp [alSet, List.lookup, h, hb]
  | cons kv rest ih =>
      obtain ⟨k', v'⟩ := kv
      by_cases hk : k' = k
      · subst hk
        by_cases h : T = k'
        · simp [alSet, List.lookup, h]
        · have hb : (T == k') = false := beq_eq_false_iff_ne.mpr h
          simp [alSet, List.lookup, h, hb]
      · by_cases h : T = k'
        · subst h
          have hb : (T == T) = true := beq_self_eq_true T
          simp [alSet, List.lookup, hk, Ne.symm hk, hb]
        · have hb : (T == k') = false := beq_eq_false_iff_ne.mpr h
          simp [alSet, List.lookup, hk, h, hb, ih]

/-- ensurePools never changes a `componentMap` pool that already exists. -/
theorem ensurePools_componentMap (ts : List String) (st : EngineState) (T : String)
    (cs : List Nat) (h : List.lookup T st.componentMap = some cs) :
    List.lookup T (ensurePools ts st).componentMap = some cs := by
  induction ts generalizing st with
  | nil => simpa [ensurePools] using h
  | cons t rest ih =>
      simp only [ensurePools]
      by_cases hp : (List.lookup t st.componentMap).isSome
      · simpa [hp] using ih st h
      · have ht : T ≠ t := by
          intro he; subst he; rw [h] at hp; simp at hp
        simp only [hp, if_false]
        exact ih _ (by simpa [alSet_lookup, ht] using h)

/-- ensurePools never changes an `activeComponentsCache` pool whose
`componentMap` pool already exists. -/
theorem ensurePools_cache (ts : List String) (st : EngineState) (T : String)
    (cs as : List Nat) (hm : List.lookup T st.componentMap = some cs)
    (hc : List.lookup T st.activeComponentsCache = some as) :
    List.lookup T (ensurePools ts st).activeComponentsCache = some as := by
  induction ts generalizing st with
  | nil => simpa [ensurePools] using hc
  | cons t rest ih =>
      simp only [ensurePools]
      by_cases hp : (List.lookup t st.componentMap).isSome
      · simpa [hp] using ih st hm hc
      · have ht : T ≠ t := by
          intro he; subst he; rw [hm] at hp; simp at hp
        simp only [hp, if_false]
        exact ih _ (by simpa [alSet_lookup, ht] using hm)
          (by simpa [alSet_lookup, ht] using hc)

end EngineReg

/-- C7: `Engine.registerSystem` creates backing pools only for declared
component types whose pool is absent.  A `componentMap` pool and an
`activeComponentsCache` pool that exist before the registration are left
exactly as they were, and every component already in the active cache of a
declared type appears in the batch the frame loop gathers for the newly
registered system on the next frame. -/
theorem registerSystem_preserves_pools (st : EngineReg.EngineState)
    (sys : EngineReg.SystemRec) (T : String) (cs as : List Nat)
    (hm : List.lookup T st.componentMap = some cs)
    (hc : List.lookup T st.activeComponentsCache = some as) :
    List.lookup T (EngineReg.registerSystem st sys).componentMap = some cs ∧
    List.lookup T (EngineReg.registerSystem st sys).activeComponentsCache = some as ∧
    (T ∈ sys.componentTypes →
      ∀ cid ∈ as, cid ∈ EngineReg.gatherBatch (EngineReg.registerSystem st sys) sys) := by
  have hm' := EngineReg.ensurePools_componentMap sys.componentTypes
    { st with systems := EngineReg.upsertSystem sys st.systems } T cs hm
  have hc' := EngineReg.ensurePools_cache sys.componentTypes
    { st with systems := EngineReg.upsertSystem sys st.systems } T cs as hm hc
  refine ⟨by simpa [EngineReg.registerSystem] using hm',
          by simpa [EngineReg.registerSystem] using hc', ?_⟩
  intro hT cid hcid
  have hlook : List.lookup T (EngineReg.registerSystem st sys).activeComponentsCache = some as := by
    simpa [EngineReg.registerSystem] using hc'
  simp only [EngineReg.gatherBatch, List.mem_flatMap]
  exact ⟨T, hT, by simp [hlook, hcid]⟩

namespace EngineReg

/-- Engine with one active GameObject and five registered `Rigidbody`
components, before any system exists. -/
def fivePoolEngine : EngineState :=
  [0, 1, 2, 3, 4].foldl
    (fun st i => registerComponent st ⟨i, "Rigidbody", true, 0⟩)
    (registerGameObject emptyEngine ⟨0, true⟩)

/-- A physics-like system declaring interest in `Rigidbody`. -/
def lateSystem : SystemRec := ⟨"Physics", ["Rigidbody"], 100⟩

end EngineReg

/-- Witness for C7: registering a system after five components of its
declared type already exist leaves the five components in the pool and in
the active cache, and the very next frame's batch for the system contains
them. -/
theorem registerSystem_preserves_pools_witness :
    List.lookup "Rigidbody"
      (EngineReg.registerSystem EngineReg.fivePoolEngine EngineReg.lateSystem).componentMap
        = some [0, 1, 2, 3, 4] ∧
    List.lookup "Rigidbody"
      (EngineReg.registerSystem EngineReg.fivePoolEngine EngineReg.lateSystem).activeComponentsCache
        = some [0, 1, 2, 3, 4] ∧
    (4 ∈ EngineReg.gatherBatch
      (EngineReg.registerSystem EngineReg.fivePoolEngine EngineReg.lateSystem)
      EngineReg.lateSystem) := by
  have h := registerSystem_preserves_pools EngineReg.fivePoolEngine EngineReg.lateSystem
    "Rigidbody" [0, 1, 2, 3, 4] [0, 1, 2, 3, 4] (by decide) (by decide)
  exact ⟨h.1, h.2.1, h.2.2 (by decide) 4 (by decide)⟩

namespace EngineReg

/-- Executed updates within one frame appear in ascending priority order. -/
theorem runFrame_pairwise (st : EngineState)
    (h : st.systemsPrioritySorted = updateSystemPriority st.systems) :
    (runFrame st).Pairwise (fun a b => a.priority ≤ b.priority) := by
  have hs : st.systemsPrioritySorted.Pairwise (fun a b => a.priority ≤ b.priority) := by
    rw [h]
    haveI : IsTotal SystemRec (fun a b => a.priority ≤ b.priority) :=
      ⟨fun a b => le_total _ _⟩
    haveI : IsTrans SystemRec (fun a b => a.priority ≤ b.priority) :=
      ⟨fun _ _ _ h1 h2 => le_trans h1 h2⟩
    exact List.sorted_insertionSort _ _
  unfold runFrame
  rw [List.pairwise_filterMap]
  refine hs.imp ?_
  intro a b hab x hx y hy
  by_cases ha : gatherBatch st a ≠ [] <;> by_cases hb : gatherBatch st b ≠ [] <;>
    simp [ha, hb] at hx hy
  subst hx; subst hy; exact hab

/-- Comparing frame tags: events of the same frame are priority-ordered. -/
theorem multiFrameTrace_pairwise (states : Nat → EngineState)
    (hmaint : ∀ n, (states n).systemsPrioritySorted = updateSystemPriority (states n).systems)
    (k : Nat) :
    (multiFrameTrace states k).Pairwise
      (fun a b => a.1 = b.1 → a.2.priority ≤ b.2.priority) := by
  unfold multiFrameTrace
  rw [List.pairwise_flatMap]
  constructor
  · intro n _
    rw [List.pairwise_map]
    exact (runFrame_pairwise (states n) (hmaint n)).imp (fun hle => fun _ => hle)
  · have hr : (List.range k).Pairwise (· < ·) := List.pairwise_lt_range k
    refine hr.imp ?_
    intro n1 n2 hlt x hx y hy
    simp only [List.mem_map] at hx hy
    obtain ⟨sx, _, rfl⟩ := hx
    obtain ⟨sy, _, rfl⟩ := hy
    intro he
    exact absurd he (by omega)

/-- The filter of an equal-priority class through `orderedInsert`. -/
theorem filter_orderedInsert (p : Int) (a : SystemRec) (l : List SystemRec) :
    (List.orderedInsert (fun x y => x.priority ≤ y.priority) a l).filter
        (fun s => s.priority == p) =
      if a.priority = p then
        a :: l.filter (fun s => s.priority == p)
      else l.filter (fun s => s.priority == p) := by
  induction l with
  | nil =>
      by_cases hp : a.priority = p
      · simp [List.orderedInsert, List.filter_cons, beq_iff_eq, hp]
      · simp [List.orderedInsert, List.filter_cons, hp, beq_eq_false_iff_ne.mpr hp]
  | cons b bs ih =>
      simp only [List.orderedInsert]
      by_cases hle : a.priority ≤ b.priority
      · rw [if_pos hle]
        by_cases hp : a.priority = p
        · rw [if_pos hp]
          simp [List.filter_cons, beq_iff_eq, hp]
        · rw [if_neg hp]
          simp [List.filter_cons, beq_eq_false_iff_ne.mpr hp]
      · rw [if_neg hle]
        have hbp : b.priority < a.priority := lt_of_not_le hle
        by_cases hbq : b.priority = p
        · have hap : a.priority ≠ p := by omega
          rw [if_neg hap]
          simp [List.filter_cons, beq_iff_eq, hbq, ih, hap]
        · simp [List.filter_cons, beq_eq_false_iff_ne.mpr hbq, ih]

/-- Stability of `updateSystemPriority`: within each equal-priority class
the registration order is preserved, exactly as the stable JavaScript
`Array.prototype.sort` behaves. -/
theorem updateSystemPriority_filter (l : List SystemRec) (p : Int) :
    (updateSystemPriority l).filter (fun s => s.priority == p) =
      l.filter (fun s => s.priority == p) := by
  induction l with
  | nil => rfl
  | cons a bs ih =>
      show (List.orderedInsert _ a (updateSystemPriority bs)).filter _ = _
      rw [filter_orderedInsert]
      by_cases hp : a.priority = p
      · simp [List.filter_cons, beq_iff_eq, hp, ih]
      · simp [List.filter_cons, hp, beq_eq_false_iff_ne.mpr hp, ih]

end EngineReg

/-- C6: within each frame the Engine invokes system updates in ascending
`getPriority` order, ties broken by registration order.  First conjunct: in
a multi-frame run whose per-frame states satisfy the code invariant
`systemsPrioritySorted = updateSystemPriority systems` (established by
`registerSystem`, its only writer), any executed update of a strictly
smaller-priority system occupies a strictly earlier position in the trace
than any update of a larger-priority system in the same frame — so S1 with
priority 0 completes before S2 with priority 100 begins.  Second conjunct:
the sort is stable, so each equal-priority class stays in registration
order. -/
theorem systems_update_in_ascending_priority :
    (∀ (states : Nat → EngineReg.EngineState),
      (∀ n, (states n).systemsPrioritySorted =
        EngineReg.updateSystemPriority (states n).systems) →
      ∀ (k n i j : Nat) (s1 s2 : EngineReg.SystemRec),
        (EngineReg.multiFrameTrace states k)[i]? = some (n, s1) →
        (EngineReg.multiFrameTrace states k)[j]? = some (n, s2) →
        s1.priority < s2.priority → i < j) ∧
    (∀ (l : List EngineReg.SystemRec) (p : Int),
      (EngineReg.updateSystemPriority l).filter (fun s => s.priority == p) =
        l.filter (fun s => s.priority == p)) := by
  constructor
  · intro states hmaint k n i j s1 s2 h1 h2 hp
    have hpw := EngineReg.multiFrameTrace_pairwise states hmaint k
    rw [List.pairwise_iff_getElem] at hpw
    obtain ⟨hi, hgi⟩ := List.getElem?_eq_some_iff.mp h1
    obtain ⟨hj, hgj⟩ := List.getElem?_eq_some_iff.mp h2
    rcases lt_trichotomy i j with h | h | h
    · exact h
    · exfalso
      subst h
      rw [hgi] at hgj
      have hss : s1 = s2 := by
        have := congrArg Prod.snd hgj
        simpa using this
      rw [hss] at hp
      exact lt_irrefl _ hp
    · exfalso
      have hrel := hpw j i hj hi h
      rw [hgj, hgi] at hrel
      exact absurd hp (not_lt.mpr (hrel rfl))
  · exact EngineReg.updateSystemPriority_filter

namespace EngineReg

/-- A priority-0 system and a priority-100 system sharing component type
`T`, registered in that order with a non-empty active pool for `T`. -/
def sysLow : SystemRec := ⟨"TransformSys", ["T"], 0⟩

/-- The later, larger-priority system of the scheduling witness. -/
def sysHigh : SystemRec := ⟨"RenderSys", ["T"], 100⟩

/-- Engine state of the scheduling witness. -/
def schedEngine : EngineState :=
  { systems := [sysLow, sysHigh],
    systemsPrioritySorted := updateSystemPriority [sysLow, sysHigh],
    componentMap := [("T", [0])],
    activeComponentsCache := [("T", [0])],
    componentStore := [⟨0, "T", true, 0⟩],
    gameObjects := [⟨0, true⟩] }

end EngineReg

/-- Witness for C6: in a one-frame run both systems execute, the priority-0
system at trace position 0 and the priority-100 system at position 1, and
the theorem yields the strict position ordering. -/
theorem systems_update_in_ascending_priority_witness :
    (EngineReg.multiFrameTrace (fun _ => EngineReg.schedEngine) 1)[0]? =
        some (0, EngineReg.sysLow) ∧
    (EngineReg.multiFrameTrace (fun _ => EngineReg.schedEngine) 1)[1]? =
        some (0, EngineReg.sysHigh) ∧
    (0 : Nat) < 1 :=
  ⟨by decide, by decide,
    systems_update_in_ascending_priority.1 (fun _ => EngineReg.schedEngine)
      (fun _ => rfl) 1 0 0 1 EngineReg.sysLow EngineReg.sysHigh
      (by decide) (by decide) (by decide)⟩

namespace Destroy

/-- A GameObject subtree: the GameObject's id, the ids of its own
components (the auto-created Transform included), and its children. -/
inductive GOTree where
  | node (id : Nat) (comps : List Nat) (children : List GOTree)

/-- Root id of a subtree. -/
def rootId : GOTree → Nat
  | .node i _ _ => i

/-- Observable actions of `GameObject.destroy`: engine component
unregistration, a component's `onDestroy` call, unlinking from the parent
(the `parent = null` assignment), and engine GameObject unregistration. -/
inductive Action where
  | unregComp (cid : Nat)
  | compDestroy (cid : Nat)
  | detach (goId : Nat)
  | unregGO (goId : Nat)
deriving DecidableEq, Repr

mutual

/-- Trace of `GameObject.destroy` (`GameObject.ts` lines 224-242): destroy
every child first, then assign `parent = null` (which unlinks only when a
parent exists), then for each own component call
`Engine.instance.unregisterComponent` followed by its `onDestroy`, then
call `Engine.instance.unregisterGameObject`. -/
def destroyTrace (hasParent : Bool) : GOTree → List Action
  | .node i comps children =>
      destroyChildren children ++
        (if hasParent then [Action.detach i] else []) ++
        comps.flatMap (fun cid => [Action.unregComp cid, Action.compDestroy cid]) ++
        [Action.unregGO i]

/-- The `for (const child of [...this._children]) child.destroy()` loop;
every destroyed child still has its parent set when its own destroy runs. -/
def destroyChildren : List GOTree → List Action
  | [] => []
  | c :: cs => destroyTrace true c ++ destroyChildren cs

end

mutual

/-- All GameObject ids of a subtree, in destruction (post-) order. -/
def allIds : GOTree → List Nat
  | .node i _ children => allIdsF children ++ [i]

/-- GameObject ids of a forest. -/
def allIdsF : List GOTree → List Nat
  | [] => []
  | c :: cs => allIds c ++ allIdsF cs

end

mutual

/-- All component ids of a subtree, in destruction order. -/
def allComps : GOTree → List Nat
  | .node _ comps children => allCompsF children ++ comps

/-- Component ids of a forest. -/
def allCompsF : List GOTree → List Nat
  | [] => []
  | c :: cs => allComps c ++ allCompsF cs

end

/-- Id carried by an `unregGO` action. -/
def unregGOid : Action → Option Nat
  | .unregGO i => some i
  | _ => none

/-- Id carried by a `compDestroy` action. -/
def onDestroyId : Action → Option Nat
  | .compDestroy c => some c
  | _ => none

/-- The component loop emits no GameObject unregistration. -/
theorem compActions_unregGO (comps : List Nat) :
    (comps.flatMap
      (fun cid => [Action.unregComp cid, Action.compDestroy cid])).filterMap unregGOid = [] := by
  induction comps with
  | nil => rfl
  | cons c cs ih =>
      simp [List.flatMap_cons, List.filterMap_append, List.filterMap_cons, unregGOid, ih]

/-- The component loop calls `onDestroy` once per listed component,
in order. -/
theorem compActions_onDestroy (comps : List Nat) :
    (comps.flatMap
      (fun cid => [Action.unregComp cid, Action.compDestroy cid])).filterMap onDestroyId
      = comps := by
  induction comps with
  | nil => rfl
  | cons c cs ih =>
      simp [List.flatMap_cons, List.filterMap_append, List.filterMap_cons, onDestroyId, ih]

mutual

/-- The GameObjects unregistered by a destroy cascade are exactly the
subtree's ids, in destruction order. -/
theorem trace_unregGO (hp : Bool) (t : GOTree) :
    (destroyTrace hp t).filterMap unregGOid = allIds t := by
  cases t with
  | node i comps children =>
      simp only [destroyTrace, allIds, List.filterMap_append,
        traceF_unregGO children, compActions_unregGO]
      cases hp <;> simp [unregGOid, List.filterMap_cons]

/-- Forest version of `trace_unregGO`. -/
theorem traceF_unregGO (ts : List GOTree) :
    (destroyChildren ts).filterMap unregGOid = allIdsF ts := by
  cases ts with
  | nil => rfl
  | cons c cs =>
      simp only [destroyChildren, allIdsF, List.filterMap_append,
        trace_unregGO true c, traceF_unregGO cs]

end

mutual

/-- The `onDestroy` calls of a destroy cascade are exactly the subtree's
components, in destruction order. -/
theorem trace_onDestroy (hp : Bool) (t : GOTree) :
    (destroyTrace hp t).filterMap onDestroyId = allComps t := by
  cases t with
  | node i comps children =>
      simp only [destroyTrace, allComps, List.filterMap_append,
        traceF_onDestroy children, compActions_onDestroy]
      cases hp <;> simp [onDestroyId, List.filterMap_cons]

/-- Forest version of `trace_onDestroy`. -/
theorem traceF_onDestroy (ts : List GOTree) :
    (destroyChildren ts).filterMap onDestroyId = allCompsF ts := by
  cases ts with
  | nil => rfl
  | cons c cs =>
      simp only [destroyChildren, allCompsF, List.filterMap_append,
        trace_onDestroy true c, traceF_onDestroy cs]

end

/-- Counting `compDestroy` actions equals counting in the extracted list. -/
theorem count_onDestroy (tr : List Action) (c : Nat) :
    (tr.filterMap onDestroyId).count c = tr.count (Action.compDestroy c) := by
  induction tr with
  | nil => rfl
  | cons a tr ih =>
      cases a <;>
        simp_all [onDestroyId, List.filterMap_cons, List.count_cons, beq_iff_eq, Action.compDestroy.injEq]

/-- Counting `unregGO` actions equals counting in the extracted list. -/
theorem count_unregGO (tr : List Action) (i : Nat) :
    (tr.filterMap unregGOid).count i = tr.count (Action.unregGO i) := by
  induction tr with
  | nil => rfl
  | cons a tr ih =>
      cases a <;>
        simp_all [unregGOid, List.filterMap_cons, List.count_cons, beq_iff_eq, Action.unregGO.injEq]

end Destroy

/-- C4 (amended): destroying a GameObject subtree unregisters exactly the
N+1 subtree GameObjects from the Engine's registry (each exactly once when
ids are distinct), calls `onDestroy` exactly once per component across the
subtree (when component ids are distinct), with the GameObject's own
registry removal last; per node the actual order is: children first, then
detach from the parent, then unregister+`onDestroy` of each own component,
then self-removal. -/
theorem destroy_cascades (hp : Bool) (t : Destroy.GOTree) :
    (Destroy.destroyTrace hp t).filterMap Destroy.unregGOid = Destroy.allIds t ∧
    (Destroy.destroyTrace hp t).filterMap Destroy.onDestroyId = Destroy.allComps t ∧
    ((Destroy.allIds t).Nodup →
      ∀ i ∈ Destroy.allIds t,
        (Destroy.destroyTrace hp t).count (Destroy.Action.unregGO i) = 1) ∧
    ((Destroy.allComps t).Nodup →
      ∀ c ∈ Destroy.allComps t,
        (Destroy.destroyTrace hp t).count (Destroy.Action.compDestroy c) = 1) ∧
    (Destroy.destroyTrace hp t).getLast? =
      some (Destroy.Action.unregGO (Destroy.rootId t)) := by
  refine ⟨Destroy.trace_unregGO hp t, Destroy.trace_onDestroy hp t, ?_, ?_, ?_⟩
  · intro hnd i hi
    rw [← Destroy.count_unregGO, Destroy.trace_unregGO hp t]
    exact List.count_eq_one_of_mem hnd hi
  · intro hnd c hc
    rw [← Destroy.count_onDestroy, Destroy.trace_onDestroy hp t]
    exact List.count_eq_one_of_mem hnd hc
  · cases t with
    | node i comps children =>
        simp only [Destroy.destroyTrace, Destroy.rootId]
        exact List.getLast?_concat _

/-- Counterexample for C4 as stated: for a GameObject (id 1, one component
10, a parent, no children) the code's destroy order is detach-from-parent
first and the component actions after it, not the claimed
components-then-detach order. -/
theorem destroy_order_counterexample :
    Destroy.destroyTrace true (Destroy.GOTree.node 1 [10] []) =
      [Destroy.Action.detach 1, Destroy.Action.unregComp 10,
       Destroy.Action.compDestroy 10, Destroy.Action.unregGO 1] ∧
    Destroy.destroyTrace true (Destroy.GOTree.node 1 [10] []) ≠
      [Destroy.Action.unregComp 10, Destroy.Action.compDestroy 10,
       Destroy.Action.detach 1, Destroy.Action.unregGO 1] := by
  constructor
  · simp [Destroy.destroyTrace, Destroy.destroyChildren]
  · simp [Destroy.destroyTrace, Destroy.destroyChildren]

namespace Destroy

/-- Witness tree: root 1 with components 10 and 11 and one child 2 with
component 20. -/
def treeW : GOTree := .node 1 [10, 11] [.node 2 [20] []]

end Destroy

/-- Witness for C4: on the concrete two-node tree the destroy cascade
unregisters GameObject 2 exactly once and destroys component 10 exactly
once. -/
theorem destroy_cascades_witness :
    (Destroy.destroyTrace true Destroy.treeW).count (Destroy.Action.unregGO 2) = 1 ∧
    (Destroy.destroyTrace true Destroy.treeW).count (Destroy.Action.compDestroy 10) = 1 := by
  have h := destroy_cascades true Destroy.treeW
  refine ⟨h.2.2.1 ?_ 2 ?_, h.2.2.2.1 ?_ 10 ?_⟩ <;>
    simp [Destroy.allIds, Destroy.allIdsF, Destroy.allComps, Destroy.allCompsF, Destroy.treeW]

namespace Ser

/-- The numeric transform fields that `GameObject.serialize` stores
(`position.x/y`, `rotation`, `scale.x/y`), with exact rationals standing in
for the JavaScript numbers. -/
structure STransform where
  px : ℚ
  py : ℚ
  rot : ℚ
  sx : ℚ
  sy : ℚ
deriving DecidableEq, Repr

/-- A GameObject tree whose only component is its Transform: `name`, `tag`,
`isActive`, the transform fields and the children.  The monotonic `id` is
serialized but never restored (`GameObject.deserialize` allocates fresh
ids), and the claim's field list does not include it, so it is omitted. -/
inductive SGameObject where
  | mk (name : String) (tag : String) (isActive : Bool) (transform : STransform)
      (children : List SGameObject)

/-- The serialized `GameObjectNode` document of such a tree: the
`components` array is empty because `serialize` filters the Transform out,
so only the fields below remain. -/
inductive Node where
  | mk (name : String) (tag : String) (isActive : Bool) (transform : STransform)
      (children : List Node)

/-- Transform accessor. -/
def transformOf : SGameObject → STransform
  | .mk _ _ _ t _ => t

mutual

/-- GameObject.serialize (`GameObject.ts` lines 276-295) on a
Transform-only tree. -/
def serialize : SGameObject → Node
  | .mk name tag isActive t children => .mk name tag isActive t (serializeF children)

/-- Children serialization (`children.map(child => child.serialize())`). -/
def serializeF : List SGameObject → List Node
  | [] => []
  | g :: gs => serialize g :: serializeF gs

end

/-- JavaScript `x || fallback` on a number: `0` (and `NaN`) are falsy. -/
def orElseNum (x fallback : ℚ) : ℚ :=
  if x = 0 then fallback else x

mutual

/-- GameObject.deserialize (`GameObject.ts` lines 298-339): `new
GameObject(data.name)` (the default name applies only to `undefined`),
`data.tag || ''`, `data.isActive ?? true`, then
`position.set(data.transform.position.x || 0, ...)`,
`rotation = data.transform.rotation || 0`,
`scale.set(data.transform.scale.x || 1, data.transform.scale.y || 1)`, and
the recursive restoration of children. -/
def deserialize : Node → SGameObject
  | .mk name tag isActive t children =>
      .mk name
        (if tag = "" then "" else tag)
        isActive
        { px := orElseNum t.px 0, py := orElseNum t.py 0,
          rot := orElseNum t.rot 0,
          sx := orElseNum t.sx 1, sy := orElseNum t.sy 1 }
        (deserializeF children)

/-- Children restoration (each child re-parented onto the fresh object). -/
def deserializeF : List Node → List SGameObject
  | [] => []
  | n :: ns => deserialize n :: deserializeF ns

end

/-- Engine.serialize (`RenderContext.ts` lines 572-582) restricted to the
GameObject payload: every registry entry's recursive tree snapshot. -/
def engineSerialize (gos : List SGameObject) : List Node :=
  serializeF gos

/-- Engine.deserialize (`RenderContext.ts` lines 584-603): rebuild each
serialized entry through `GameObject.deserialize`. -/
def engineDeserialize (doc : List Node) : List SGameObject :=
  deserializeF doc

mutual

/-- Every node of the tree has nonzero scale components. -/
def goodScales : SGameObject → Bool
  | .mk _ _ _ t children => (t.sx != 0) && (t.sy != 0) && goodScalesF children

/-- Forest version of `goodScales`. -/
def goodScalesF : List SGameObject → Bool
  | [] => true
  | g :: gs => goodScales g && goodScalesF gs

end

/-- Restoring with fallback `0` is the identity: the fallback only fires on
the value `0` itself. -/
theorem orElseNum_zero (x : ℚ) : orElseNum x 0 = x := by
  by_cases h : x = 0 <;> simp [orElseNum, h]

mutual

/-- Round trip on a single tree whose scales are all nonzero. -/
theorem roundtrip (g : SGameObject) (h : goodScales g = true) :
    deserialize (serialize g) = g := by
  cases g with
  | mk name tag isActive t children =>
      have h' : ((t.sx != 0) && (t.sy != 0) && goodScalesF children) = true := h
      simp only [Bool.and_eq_true, bne_iff_ne] at h'
      obtain ⟨⟨hsx, hsy⟩, hch⟩ := h'
      simp only [serialize, deserialize, roundtripF children hch]
      have htag : (if tag = "" then "" else tag) = tag := by
        by_cases ht : tag = "" <;> simp [ht]
      have htr : ({ px := orElseNum t.px 0, py := orElseNum t.py 0,
                    rot := orElseNum t.rot 0,
                    sx := orElseNum t.sx 1, sy := orElseNum t.sy 1 } : STransform) = t := by
        obtain ⟨px, py, rot, sx, sy⟩ := t
        simp only at hsx hsy
        refine STransform.mk.injEq .. ▸ ?_
        exact ⟨orElseNum_zero px, orElseNum_zero py, orElseNum_zero rot,
          by simp [orElseNum, hsx], by simp [orElseNum, hsy]⟩
      rw [htag, htr]

/-- Round trip on a forest whose scales are all nonzero. -/
theorem roundtripF (gs : List SGameObject) (h : goodScalesF gs = true) :
    deserializeF (serializeF gs) = gs := by
  cases gs with
  | nil => rfl
  | cons g gs =>
      have h' : goodScales g = true ∧ goodScalesF gs = true := by
        simpa [goodScalesF, Bool.and_eq_true] using h
      simp only [serializeF, deserializeF, roundtrip g h'.1, roundtripF gs h'.2]

end

end Ser

/-- C5 (amended): serializing through `Engine.serialize` and restoring
through `Engine.deserialize`/`GameObject.deserialize` reproduces every
node's `name`, `tag`, `isActive`, position, rotation and scale fields for
every Transform-only tree in which every node's scale components are
nonzero.  The restriction is forced by the `data.transform.scale.x || 1`
fallback, which turns a serialized scale component `0` into `1`. -/
theorem serialization_roundtrip_amended (gos : List Ser.SGameObject)
    (h : Ser.goodScalesF gos = true) :
    Ser.engineDeserialize (Ser.engineSerialize gos) = gos :=
  Ser.roundtripF gos h

namespace Ser

/-- A single GameObject with scale `(0, 1)`. -/
def gZero : SGameObject := .mk "a" "" true ⟨0, 0, 0, 0, 1⟩ []

end Ser

/-- Counterexample for C5 as stated: a tree consisting of one GameObject
with scale `(0, 1)` round-trips to scale `(1, 1)` — the `|| 1` fallback of
`GameObject.deserialize` rewrites the falsy scale component, so the claimed
identical restoration of all transform numeric fields fails. -/
theorem serialization_roundtrip_counterexample :
    (Ser.engineDeserialize (Ser.engineSerialize [Ser.gZero])).map Ser.transformOf
        = [⟨0, 0, 0, 1, 1⟩] ∧
    [Ser.gZero].map Ser.transformOf = [⟨0, 0, 0, 0, 1⟩] ∧
    (⟨0, 0, 0, 1, 1⟩ : Ser.STransform) ≠ ⟨0, 0, 0, 0, 1⟩ := by
  refine ⟨?_, by simp [Ser.gZero, Ser.transformOf], by decide⟩
  simp [Ser.engineDeserialize, Ser.engineSerialize, Ser.gZero, Ser.serializeF,
    Ser.serialize, Ser.deserializeF, Ser.deserialize, Ser.orElseNum, Ser.transformOf]

namespace Ser

/-- A two-node tree with nonzero scales for the round-trip witness. -/
def gW : SGameObject :=
  .mk "root" "tagged" true ⟨5, -3, 90, 2, 1⟩ [.mk "child" "" false ⟨1, 2, 0, 1, 1⟩ []]

end Ser

/-- Witness for C5: the concrete two-node tree with nonzero scales is
reproduced exactly. -/
theorem serialization_roundtrip_witness :
    Ser.engineDeserialize (Ser.engineSerialize [Ser.gW]) = [Ser.gW] :=
  serialization_roundtrip_amended [Ser.gW]
    (by simp [Ser.goodScalesF, Ser.goodScales, Ser.gW])

namespace Phys

/-- Vector2 (`Vector2.ts`), with the reals standing in for the JavaScript
numbers. -/
structure Vector2 where
  x : ℝ
  y : ℝ

/-- Vector addition. -/
def Vector2.add (v w : Vector2) : Vector2 := ⟨v.x + w.x, v.y + w.y⟩

/-- Vector subtraction. -/
def Vector2.subtract (v w : Vector2) : Vector2 := ⟨v.x - w.x, v.y - w.y⟩

/-- Scalar multiplication. -/
def Vector2.multiply (v : Vector2) (s : ℝ) : Vector2 := ⟨v.x * s, v.y * s⟩

/-- Scalar division. -/
noncomputable def Vector2.divide (v : Vector2) (s : ℝ) : Vector2 := ⟨v.x / s, v.y / s⟩

/-- The `magnitude` getter: `Math.sqrt(x * x + y * y)`. -/
noncomputable def Vector2.magnitude (v : Vector2) : ℝ :=
  Real.sqrt (v.x * v.x + v.y * v.y)

/-- The `normalized` getter: `mag > 0 ? this.divide(mag) : Vector2.zero`. -/
noncomputable def Vector2.normalized (v : Vector2) : Vector2 :=
  if 0 < v.magnitude then v.divide v.magnitude else ⟨0, 0⟩

/-- Dot product. -/
def Vector2.dot (a b : Vector2) : ℝ := a.x * b.x + a.y * b.y

/-- `Vector2.distance(a, b) = a.subtract(b).magnitude`. -/
noncomputable def Vector2.distance (a b : Vector2) : ℝ := (a.subtract b).magnitude

/-- The Transform fields the physics subsystem reads and writes
(`Transform.ts`). -/
structure TransformData where
  position : Vector2
  rotation : ℝ
  scale : Vector2
  velocity : Vector2
  angularVelocity : ℝ

/-- Collider shape variant: `BoxCollider` (width, height) or
`CircleCollider` (radius). -/
inductive ColliderShape where
  | box (width height : ℝ)
  | circle (radius : ℝ)

/-- Collider fields (`Script.ts` Collider base class): the shape payload,
the local `offset`, `isTrigger`, and the inherited `enabled` flag. -/
structure ColliderData where
  shape : ColliderShape
  offset : Vector2
  isTrigger : Bool
  enabled : Bool

/-- Rigidbody fields (`Rigidbody` component): mass, drag, angular drag,
gravity scale, kinematic flag, the inherited `enabled` flag, and the
mutable velocity/angular-velocity/force/torque state. -/
structure RigidbodyData where
  enabled : Bool
  mass : ℝ
  drag : ℝ
  angularDrag : ℝ
  gravityScale : ℝ
  isKinematic : Bool
  velocity : Vector2
  angularVelocity : ℝ
  force : Vector2
  torque : ℝ

/-- Rigidbody.addForce: accumulate unless kinematic. -/
def RigidbodyData.addForce (rb : RigidbodyData) (f : Vector2) : RigidbodyData :=
  if rb.isKinematic then rb else { rb with force := rb.force.add f }

/-- Rigidbody.addImpulse: `velocity += impulse / mass` unless kinematic. -/
noncomputable def RigidbodyData.addImpulse (rb : RigidbodyData) (impulse : Vector2) :
    RigidbodyData :=
  if rb.isKinematic then rb
  else { rb with velocity := rb.velocity.add (impulse.divide rb.mass) }

/-- Rigidbody.clearForces. -/
def RigidbodyData.clearForces (rb : RigidbodyData) : RigidbodyData :=
  { rb with force := ⟨0, 0⟩, torque := 0 }

/-- Physics-relevant component variants in a GameObject's component list:
colliders, rigidbodies and Script components (the latter identified by an
id, for event dispatch). -/
inductive PComponent where
  | collider (c : ColliderData)
  | rigidbody (r : RigidbodyData)
  | script (sid : Nat)

/-- A GameObject as the physics system sees it: its id, its Transform, its
components in insertion order, and its optional parent (used by the
recursive `worldPosition` getter). -/
inductive PGameObject where
  | mk (id : Nat) (transform : TransformData) (comps : List PComponent)
      (parent : Option PGameObject)

/-- The GameObject's id. -/
def PGameObject.id : PGameObject → Nat
  | .mk i _ _ _ => i

/-- The GameObject's Transform. -/
def PGameObject.transform : PGameObject → TransformData
  | .mk _ t _ _ => t

/-- The GameObject's component list. -/
def PGameObject.comps : PGameObject → List PComponent
  | .mk _ _ cs _ => cs

/-- Transform.worldPosition: own position for a root object, otherwise the
parent chain's world position plus the own position. -/
def PGameObject.worldPosition : PGameObject → Vector2
  | .mk _ t _ none => t.position
  | .mk _ t _ (some p) => p.worldPosition.add t.position

/-- Replace the component list (modelling in-place mutation). -/
def PGameObject.setComps : PGameObject → List PComponent → PGameObject
  | .mk i t _ p, cs => .mk i t cs p

/-- Replace the Transform (modelling in-place mutation). -/
def PGameObject.setTransform : PGameObject → TransformData → PGameObject
  | .mk i _ cs p, t => .mk i t cs p

/-- The `instanceof Collider` downcast on one component. -/
def colliderOf : PComponent → Option ColliderData
  | .collider c => some c
  | _ => none

/-- The `instanceof Rigidbody` downcast on one component. -/
def rigidbodyOf : PComponent → Option RigidbodyData
  | .rigidbody r => some r
  | _ => none

/-- `gameObject.getComponent(Collider)` /
`getAllComponents().find(c => c instanceof Collider)`: the first collider
in insertion order. -/
def getColliderComp (go : PGameObject) : Option ColliderData :=
  go.comps.findSome? colliderOf

/-- `gameObject.getComponent(Rigidbody)` / `find(c => c instanceof
Rigidbody)`: the first rigidbody in insertion order. -/
def getRigidbodyComp (go : PGameObject) : Option RigidbodyData :=
  go.comps.findSome? rigidbodyOf

/-- `getComponents(Script)` / `filter(c => c instanceof Script)`. -/
def getScripts (go : PGameObject) : List Nat :=
  go.comps.filterMap (fun cp =>
    match cp with
    | .script s => some s
    | _ => none)

/-- Mutate the first rigidbody component, leaving everything else. -/
def replaceFirstRb : List PComponent → (RigidbodyData → RigidbodyData) → List PComponent
  | [], _ => []
  | .rigidbody r :: rest, f => .rigidbody (f r) :: rest
  | cp :: rest, f => cp :: replaceFirstRb rest f

/-- Apply a mutation to the GameObject's first rigidbody. -/
def updateFirstRigidbody (go : PGameObject) (f : RigidbodyData → RigidbodyData) :
    PGameObject :=
  go.setComps (replaceFirstRb go.comps f)

/-- `Engine.instance.getGameObject(id)` against the live registry. -/
def findGO (world : List PGameObject) (i : Nat) : Option PGameObject :=
  world.find? (fun go => go.id == i)

/-- In-place mutation of the registry entry with the given id. -/
def updateGO (world : List PGameObject) (i : Nat) (f : PGameObject → PGameObject) :
    List PGameObject :=
  world.map (fun go => if go.id == i then f go else go)

/-- Collider.getWorldBounds: box bounds from the world position, the offset
and the scaled half-extents (`BoxCollider.ts` lines 27-38); circle bounds
from the world-scaled radius (`CircleCollider.ts` lines 39-48). -/
noncomputable def getWorldBounds (go : PGameObject) (c : ColliderData) :
    Vector2 × Vector2 :=
  match c.shape with
  | .box w h =>
      let worldPos := go.worldPosition.add c.offset
      let halfWidth := w * go.transform.scale.x / 2
      let halfHeight := h * go.transform.scale.y / 2
      (⟨worldPos.x - halfWidth, worldPos.y - halfHeight⟩,
       ⟨worldPos.x + halfWidth, worldPos.y + halfHeight⟩)
  | .circle r =>
      let worldPos := go.worldPosition.add c.offset
      let worldRadius := r * max go.transform.scale.x go.transform.scale.y
      (⟨worldPos.x - worldRadius, worldPos.y - worldRadius⟩,
       ⟨worldPos.x + worldRadius, worldPos.y + worldRadius⟩)

/-- BoxCollider.checkCollision (`BoxCollider.ts` lines 12-25): the bounds
overlap test against another box; every non-box argument falls through to
`return false`. -/
noncomputable def boxCheckCollision (go : PGameObject) (c : ColliderData)
    (ogo : PGameObject) (oc : ColliderData) : Bool :=
  match oc.shape with
  | .box _ _ =>
      let thisBounds := getWorldBounds go c
      let otherBounds := getWorldBounds ogo oc
      !(decide (thisBounds.2.x < otherBounds.1.x) ||
        decide (thisBounds.1.x > otherBounds.2.x) ||
        decide (thisBounds.2.y < otherBounds.1.y) ||
        decide (thisBounds.1.y > otherBounds.2.y))
  | .circle _ => false

/-- CircleCollider.checkCollision (`CircleCollider.ts` lines 12-37):
circle-circle by centre distance against the summed world radii, and
circle-box by the distance to the closest point on the box. -/
noncomputable def circleCheckCollision (go : PGameObject) (radius : ℝ)
    (c : ColliderData) (ogo : PGameObject) (oc : ColliderData) : Bool :=
  let worldPos := go.worldPosition.add c.offset
  let worldRadius := radius * max go.transform.scale.x go.transform.scale.y
  match oc.shape with
  | .circle orad =>
      let otherWorldPos := ogo.worldPosition.add oc.offset
      let otherWorldRadius :=
        orad * max ogo.transform.scale.x ogo.transform.scale.y
      decide (Vector2.distance worldPos otherWorldPos ≤ worldRadius + otherWorldRadius)
  | .box _ _ =>
      let boxBounds := getWorldBounds ogo oc
      let closestX := max boxBounds.1.x (min worldPos.x boxBounds.2.x)
      let closestY := max boxBounds.1.y (min worldPos.y boxBounds.2.y)
      decide (Vector2.distance worldPos ⟨closestX, closestY⟩ ≤ worldRadius)

/-- Dynamic dispatch of `collider.checkCollision(other)` on the collider's
own runtime type. -/
noncomputable def checkCollision (go : PGameObject) (c : ColliderData)
    (ogo : PGameObject) (oc : ColliderData) : Bool :=
  match c.shape with
  | .box _ _ => boxCheckCollision go c ogo oc
  | .circle r => circleCheckCollision go r c ogo oc

/-- Collision event phase. -/
inductive EventKind where
  | enter
  | stay
  | exit
deriving DecidableEq, Repr

/-- One `triggerCollisionEvent(a, b, type)` dispatch: the two GameObject
ids, the phase, and whether it went to the trigger callbacks
(`aCollider?.isTrigger || bCollider?.isTrigger`) rather than the collision
callbacks of the Scripts on both sides. -/
structure PEvent where
  aId : Nat
  bId : Nat
  kind : EventKind
  asTrigger : Bool
deriving DecidableEq, Repr

/-- The trigger test of `triggerCollisionEvent`, re-fetching each side's
first collider. -/
def triggerFlag (a b : PGameObject) : Bool :=
  ((getColliderComp a).map ColliderData.isTrigger).getD false ||
    ((getColliderComp b).map ColliderData.isTrigger).getD false

/-- PhysicsSystem.triggerCollisionEvent as an event record. -/
def triggerCollisionEvent (a b : PGameObject) (kind : EventKind) : PEvent :=
  ⟨a.id, b.id, kind, triggerFlag a b⟩

/-- PhysicsSystem.resolveCollision (`PhysicsSystem.ts` lines 146-176):
fetch both sides' first Rigidbody; return untouched when both are missing
or when either is missing or kinematic; otherwise compute the normalized
position-difference normal, skip separating pairs, and apply the impulse
`(2 · velocityAlongNormal) / (1/mₐ + 1/m_b)` scaled by the fixed
restitution 0.8 to one side and its negation to the other. -/
noncomputable def resolveCollision (world : List PGameObject) (aId bId : Nat) :
    List PGameObject :=
  match findGO world aId, findGO world bId with
  | some ago, some bgo =>
      match getRigidbodyComp ago, getRigidbodyComp bgo with
      | none, none => world
      | some aRb, some bRb =>
          if !aRb.isKinematic && !bRb.isKinematic then
            let normal := (bgo.transform.position.subtract ago.transform.position).normalized
            let relativeVelocity := bRb.velocity.subtract aRb.velocity
            let velocityAlongNormal := Vector2.dot relativeVelocity normal
            if 0 < velocityAlongNormal then world
            else
              let restitution : ℝ := 0.8
              let impulse := (2 * velocityAlongNormal) / (1 / aRb.mass + 1 / bRb.mass)
              let impulseVector := normal.multiply (impulse * restitution)
              updateGO
                (updateGO world aId
                  (fun go => updateFirstRigidbody go (fun rb => rb.addImpulse impulseVector)))
                bId
                (fun go => updateFirstRigidbody go
                  (fun rb => rb.addImpulse (impulseVector.multiply (-1))))
          else world
      | _, _ => world
  | _, _ => world

/-- The collider collection of `checkCollisions` (`PhysicsSystem.ts` lines
57-63 and 239-249): for every GameObject of the registry take its first
collider, and keep the pair when that collider is enabled. -/
def collectColliders (gos : List PGameObject) : List (PGameObject × ColliderData) :=
  gos.flatMap (fun go =>
    match getColliderComp go with
    | some c => if c.enabled then [(go, c)] else []
    | none => [])

/-- All index-ordered pairs `(i, j)` with `i < j`, in the double-loop
order of `checkCollisions`. -/
def allPairs {α : Type} : List α → List (α × α)
  | [] => []
  | x :: xs => xs.map (fun y => (x, y)) ++ allPairs xs

/-- The pairwise loop body of `checkCollisions`: on a hit, record the pair
key `(a.id, b.id)`, fire enter when the key was absent from last step's
`collisionPairs` and stay otherwise, and run `resolveCollision` when
neither collider is a trigger. -/
noncomputable def pairScan (prevPairs : List (Nat × Nat)) :
    List ((PGameObject × ColliderData) × (PGameObject × ColliderData)) →
      List PGameObject → List (Nat × Nat) → List PEvent →
      List PGameObject × List (Nat × Nat) × List PEvent
  | [], world, newPairs, events => (world, newPairs, events)
  | ((ago, ac), (bgo, bc)) :: rest, world, newPairs, events =>
      if checkCollision ago ac bgo bc then
        let pairKey := (ago.id, bgo.id)
        let newPairs' := if pairKey ∈ newPairs then newPairs else newPairs ++ [pairKey]
        let ev :=
          if pairKey ∈ prevPairs then triggerCollisionEvent ago bgo .stay
          else triggerCollisionEvent ago bgo .enter
        let world' :=
          if !ac.isTrigger && !bc.isTrigger then resolveCollision world ago.id bgo.id
          else world
        pairScan prevPairs rest world' newPairs' (events ++ [ev])
      else pairScan prevPairs rest world newPairs events

/-- PhysicsSystem.checkCollisions (`PhysicsSystem.ts` lines 53-108):
collect colliders, scan all pairs against the persistent pair-key set, then
fire exit for every previously touching pair that is gone this step and
whose two GameObjects still resolve in the registry; returns the mutated
world, the new pair-key set and the dispatched events in order. -/
noncomputable def checkCollisions (gos : List PGameObject)
    (collisionPairs : List (Nat × Nat)) :
    List PGameObject × List (Nat × Nat) × List PEvent :=
  let colliders := collectColliders gos
  let scanned := pairScan collisionPairs (allPairs colliders) gos [] []
  let world := scanned.1
  let newPairs := scanned.2.1
  let exitEvents := collisionPairs.filterMap (fun pk =>
    if pk ∈ newPairs then none
    else
      match findGO world pk.1, findGO world pk.2 with
      | some a, some b => some (triggerCollisionEvent a b .exit)
      | _, _ => none)
  (world, newPairs, scanned.2.2 ++ exitEvents)

/-- The gravity constant of PhysicsSystem (pixels per second squared). -/
def gravity : Vector2 := ⟨0, 980⟩

/-- The integration loop body of `PhysicsSystem.update` for one rigidbody
(skipped when disabled or kinematic): accumulate the scaled gravity force,
integrate velocity from `force / mass`, apply the `(1 - drag·dt)` damping,
write the velocity into the Transform, integrate the angular velocity from
`torque / mass` with its own damping, and clear the accumulated forces. -/
noncomputable def integrateGO (dt : ℝ) (go : PGameObject) : PGameObject :=
  match getRigidbodyComp go with
  | none => go
  | some rb0 =>
      if !rb0.enabled || rb0.isKinematic then go
      else
        let rb1 := rb0.addForce (gravity.multiply (rb0.mass * rb0.gravityScale))
        let acceleration := rb1.force.divide rb1.mass
        let v1 := rb1.velocity.add (acceleration.multiply dt)
        let v2 := v1.multiply (1 - rb1.drag * dt)
        let angularAcceleration := rb1.torque / rb1.mass
        let av2 := (rb1.angularVelocity + angularAcceleration * dt) * (1 - rb1.angularDrag * dt)
        let go1 := go.setTransform
          { go.transform with velocity := v2, angularVelocity := av2 }
        updateFirstRigidbody go1
          (fun _ => ({ rb1 with velocity := v2, angularVelocity := av2 }).clearForces)

/-- PhysicsSystem.update: integrate every rigidbody of the batch (the
batch is given by the owning GameObjects' ids), then run the collision
detection pass. -/
noncomputable def update (dt : ℝ) (batch : List Nat) (world : List PGameObject)
    (collisionPairs : List (Nat × Nat)) :
    List PGameObject × List (Nat × Nat) × List PEvent :=
  let world1 := batch.foldl (fun w i => updateGO w i (integrateGO dt)) world
  checkCollisions world1 collisionPairs

/-- Collider collection on a two-object registry with both first colliders
enabled. -/
theorem collectColliders_two (gA gB : PGameObject) (cA cB : ColliderData)
    (hA : getColliderComp gA = some cA) (hAe : cA.enabled = true)
    (hB : getColliderComp gB = some cB) (hBe : cB.enabled = true) :
    collectColliders [gA, gB] = [(gA, cA), (gB, cB)] := by
  simp [collectColliders, hA, hAe, hB, hBe]

/-- checkCollisions on a two-object registry whose single pair does not
overlap: nothing enters, and only stale pairs exit. -/
theorem checkCollisions_two_nohit (gA gB : PGameObject) (cA cB : ColliderData)
    (prev : List (Nat × Nat))
    (hA : getColliderComp gA = some cA) (hAe : cA.enabled = true)
    (hB : getColliderComp gB = some cB) (hBe : cB.enabled = true)
    (h : checkCollision gA cA gB cB = false) :
    checkCollisions [gA, gB] prev =
      ([gA, gB], [],
        prev.filterMap (fun pk =>
          match findGO [gA, gB] pk.1, findGO [gA, gB] pk.2 with
          | some a, some b => some (triggerCollisionEvent a b .exit)
          | _, _ => none)) := by
  simp only [checkCollisions, collectColliders_two gA gB cA cB hA hAe hB hBe,
    allPairs, List.map_nil, List.map_cons, List.nil_append, List.append_nil,
    pairScan, h, Bool.false_eq_true, if_false, List.not_mem_nil]

/-- checkCollisions on a two-object registry whose single pair overlaps:
the pair key is recorded, one enter-or-stay event fires according to the
persistent pair set, resolution runs for a non-trigger pair, and only
stale pairs other than this one exit. -/
theorem checkCollisions_two_hit (gA gB : PGameObject) (cA cB : ColliderData)
    (prev : List (Nat × Nat))
    (hA : getColliderComp gA = some cA) (hAe : cA.enabled = true)
    (hB : getColliderComp gB = some cB) (hBe : cB.enabled = true)
    (h : checkCollision gA cA gB cB = true) :
    checkCollisions [gA, gB] prev =
      (let world' :=
        if !cA.isTrigger && !cB.isTrigger then resolveCollision [gA, gB] gA.id gB.id
        else [gA, gB]
      (world', [(gA.id, gB.id)],
        [if (gA.id, gB.id) ∈ prev then triggerCollisionEvent gA gB .stay
          else triggerCollisionEvent gA gB .enter] ++
          prev.filterMap (fun pk =>
            if pk ∈ [(gA.id, gB.id)] then none
            else
              match findGO world' pk.1, findGO world' pk.2 with
              | some a, some b => some (triggerCollisionEvent a b .exit)
              | _, _ => none))) := by
  simp only [checkCollisions, collectColliders_two gA gB cA cB hA hAe hB hBe,
    allPairs, List.map_nil, List.map_cons, List.nil_append, List.append_nil,
    pairScan, h, if_true, List.not_mem_nil, if_false, List.nil_append]

end Phys

/-- C2: for two enabled colliders on GameObjects with distinct ids whose
overlap predicate evaluates false, true, true, false over four consecutive
`checkCollisions` steps (the world configurations may move arbitrarily
between steps), the event sequence dispatched across the four steps is
exactly one enter at the first overlapping step, one stay at the second,
and one exit at the step where the overlap ends — no duplicate enter and
no missing exit — with the persistent pair-key set carrying exactly the
pair between the overlapping steps. -/
theorem collision_transitions (a b : Nat) (hab : a ≠ b)
    (gA gB : Fin 4 → Phys.PGameObject) (cA cB : Fin 4 → Phys.ColliderData)
    (hAid : ∀ i, (gA i).id = a) (hBid : ∀ i, (gB i).id = b)
    (hA : ∀ i, Phys.getColliderComp (gA i) = some (cA i))
    (hAe : ∀ i, (cA i).enabled = true)
    (hB : ∀ i, Phys.getColliderComp (gB i) = some (cB i))
    (hBe : ∀ i, (cB i).enabled = true)
    (h1 : Phys.checkCollision (gA 0) (cA 0) (gB 0) (cB 0) = false)
    (h2 : Phys.checkCollision (gA 1) (cA 1) (gB 1) (cB 1) = true)
    (h3 : Phys.checkCollision (gA 2) (cA 2) (gB 2) (cB 2) = true)
    (h4 : Phys.checkCollision (gA 3) (cA 3) (gB 3) (cB 3) = false) :
    (Phys.checkCollisions [gA 0, gB 0] []).2.2 = [] ∧
    (Phys.checkCollisions [gA 0, gB 0] []).2.1 = [] ∧
    (Phys.checkCollisions [gA 1, gB 1]
        (Phys.checkCollisions [gA 0, gB 0] []).2.1).2.2 =
      [⟨a, b, .enter, Phys.triggerFlag (gA 1) (gB 1)⟩] ∧
    (Phys.checkCollisions [gA 1, gB 1]
        (Phys.checkCollisions [gA 0, gB 0] []).2.1).2.1 = [(a, b)] ∧
    (Phys.checkCollisions [gA 2, gB 2] [(a, b)]).2.2 =
      [⟨a, b, .stay, Phys.triggerFlag (gA 2) (gB 2)⟩] ∧
    (Phys.checkCollisions [gA 2, gB 2] [(a, b)]).2.1 = [(a, b)] ∧
    (Phys.checkCollisions [gA 3, gB 3] [(a, b)]).2.2 =
      [⟨a, b, .exit, Phys.triggerFlag (gA 3) (gB 3)⟩] ∧
    (Phys.checkCollisions [gA 3, gB 3] [(a, b)]).2.1 = [] := by
  have r1 := Phys.checkCollisions_two_nohit (gA 0) (gB 0) (cA 0) (cB 0) []
    (hA 0) (hAe 0) (hB 0) (hBe 0) h1
  have r2 := Phys.checkCollisions_two_hit (gA 1) (gB 1) (cA 1) (cB 1) []
    (hA 1) (hAe 1) (hB 1) (hBe 1) h2
  have r3 := Phys.checkCollisions_two_hit (gA 2) (gB 2) (cA 2) (cB 2) [(a, b)]
    (hA 2) (hAe 2) (hB 2) (hBe 2) h3
  have r4 := Phys.checkCollisions_two_nohit (gA 3) (gB 3) (cA 3) (cB 3) [(a, b)]
    (hA 3) (hAe 3) (hB 3) (hBe 3) h4
  rw [hAid, hBid] at r2 r3
  have hne : (a == b) = false := beq_eq_false_iff_ne.mpr hab
  have p1 : (Phys.checkCollisions [gA 0, gB 0] []).2.1 = [] := by rw [r1]
  have e1 : (Phys.checkCollisions [gA 0, gB 0] []).2.2 = [] := by
    rw [r1]
    simp
  refine ⟨e1, p1, ?_, ?_, ?_, ?_, ?_, ?_⟩
  · rw [p1, r2]
    simp [Phys.triggerCollisionEvent, hAid, hBid]
  · rw [p1, r2]
  · rw [r3]
    simp [Phys.triggerCollisionEvent, hAid, hBid]
  · rw [r3]
  · rw [r4]
    have hfa : Phys.findGO [gA 3, gB 3] a = some (gA 3) := by
      simp [Phys.findGO, List.find?, hAid]
    have hfb : Phys.findGO [gA 3, gB 3] b = some (gB 3) := by
      simp [Phys.findGO, List.find?, hAid, hBid, hne]
    simp [hfa, hfb, Phys.triggerCollisionEvent, hAid, hBid]
  · rw [r4]

namespace Phys

/-- A default non-trigger 50×50 box collider with zero offset. -/
def boxColliderW : ColliderData := ⟨.box 50 50, ⟨0, 0⟩, false, true⟩

/-- A parentless GameObject at `(px, 0)` with unit scale carrying one box
collider. -/
def mkBoxGO (i : Nat) (px : ℝ) : PGameObject :=
  .mk i ⟨⟨px, 0⟩, 0, ⟨1, 1⟩, ⟨0, 0⟩, 0⟩ [.collider boxColliderW] none

/-- Witness object A at the origin. -/
noncomputable def goA : PGameObject := mkBoxGO 0 0

/-- Witness object B at x = 100 (no overlap with A). -/
noncomputable def goBfar : PGameObject := mkBoxGO 1 100

/-- Witness object B at x = 10 (overlapping A). -/
noncomputable def goBnear : PGameObject := mkBoxGO 1 10

/-- The two 50×50 boxes at distance 100 do not overlap. -/
theorem overlap_far :
    checkCollision goA boxColliderW goBfar boxColliderW = false := by
  simp only [checkCollision, boxCheckCollision, getWorldBounds, goA, goBfar,
    mkBoxGO, boxColliderW, PGameObject.worldPosition, PGameObject.transform,
    Vector2.add]
  norm_num

/-- The two 50×50 boxes at distance 10 overlap. -/
theorem overlap_near :
    checkCollision goA boxColliderW goBnear boxColliderW = true := by
  simp only [checkCollision, boxCheckCollision, getWorldBounds, goA, goBnear,
    mkBoxGO, boxColliderW, PGameObject.worldPosition, PGameObject.transform,
    Vector2.add]
  norm_num

end Phys

/-- Witness for C2: two 50×50 box colliders, one fixed at the origin and
the other at x = 100, 10, 10, 100 over four steps, produce exactly the
event sequence enter, stay, exit. -/
theorem collision_transitions_witness :
    (Phys.checkCollisions [Phys.goA, Phys.goBfar] []).2.2 = [] ∧
    (Phys.checkCollisions [Phys.goA, Phys.goBnear]
        (Phys.checkCollisions [Phys.goA, Phys.goBfar] []).2.1).2.2 =
      [⟨0, 1, .enter, Phys.triggerFlag Phys.goA Phys.goBnear⟩] ∧
    (Phys.checkCollisions [Phys.goA, Phys.goBnear] [(0, 1)]).2.2 =
      [⟨0, 1, .stay, Phys.triggerFlag Phys.goA Phys.goBnear⟩] ∧
    (Phys.checkCollisions [Phys.goA, Phys.goBfar] [(0, 1)]).2.2 =
      [⟨0, 1, .exit, Phys.triggerFlag Phys.goA Phys.goBfar⟩] := by
  have h := collision_transitions 0 1 (by decide) (fun _ => Phys.goA)
    ![Phys.goBfar, Phys.goBnear, Phys.goBnear, Phys.goBfar]
    (fun _ => Phys.boxColliderW) (fun _ => Phys.boxColliderW)
    (fun _ => rfl) (fun i => by fin_cases i <;> rfl)
    (fun _ => rfl) (fun _ => rfl)
    (fun i => by fin_cases i <;> rfl) (fun _ => rfl)
    Phys.overlap_far Phys.overlap_near Phys.overlap_near Phys.overlap_far
  exact ⟨h.1, h.2.2.1, h.2.2.2.2.1, h.2.2.2.2.2.2.1⟩

namespace Phys

/-- resolveCollision leaves the world untouched whenever either GameObject
of the pair has no Rigidbody: the `if (!aRb && !bRb) return` and
`if (aRb && bRb && ...)` guards both fail to reach the impulse code. -/
theorem resolveCollision_one_missing (world : List PGameObject) (aId bId : Nat)
    (h : (∀ go, findGO world aId = some go → getRigidbodyComp go = none) ∨
      (∀ go, findGO world bId = some go → getRigidbodyComp go = none)) :
    resolveCollision world aId bId = world := by
  unfold resolveCollision
  cases hfa : findGO world aId with
  | none => cases hfb : findGO world bId <;> simp [hfa, hfb]
  | some ago =>
      cases hfb : findGO world bId with
      | none => simp [hfa, hfb]
      | some bgo =>
          rcases h with h | h
          · have hra : getRigidbodyComp ago = none := h ago hfa
            cases hrb : getRigidbodyComp bgo <;> simp [hfa, hfb, hra, hrb]
          · have hrb : getRigidbodyComp bgo = none := h bgo hfb
            cases hra : getRigidbodyComp ago <;> simp [hfa, hfb, hra, hrb]

end Phys

/-- C8: for a colliding non-trigger pair with a Rigidbody missing on
either side — the first-listed or the second-listed GameObject —
resolution is silently skipped: the step leaves the world, in particular
every velocity, unchanged, while the collision callbacks for the pair
still fire.  The dispatched event is enter when the pair was not in the
persistent set and stay when it was, and at a later step where the
overlap has ended the exit callback fires as well (a miss never reaches
`resolveCollision`, so velocities are again untouched). -/
theorem missing_rigidbody_skips_resolution
    (gA gB gX gY : Phys.PGameObject) (cA cB cX cY : Phys.ColliderData)
    (prev : List (Nat × Nat))
    (hab : gA.id ≠ gB.id)
    (hA : Phys.getColliderComp gA = some cA) (hAe : cA.enabled = true)
    (hB : Phys.getColliderComp gB = some cB) (hBe : cB.enabled = true)
    (hTA : cA.isTrigger = false) (hTB : cB.isTrigger = false)
    (hRb : Phys.getRigidbodyComp gA = none ∨ Phys.getRigidbodyComp gB = none)
    (hhit : Phys.checkCollision gA cA gB cB = true)
    (hprev : prev = [] ∨ prev = [(gA.id, gB.id)])
    (hXid : gX.id = gA.id) (hYid : gY.id = gB.id)
    (hX : Phys.getColliderComp gX = some cX) (hXe : cX.enabled = true)
    (hY : Phys.getColliderComp gY = some cY) (hYe : cY.enabled = true)
    (hTX : cX.isTrigger = false) (hTY : cY.isTrigger = false)
    (hmiss : Phys.checkCollision gX cX gY cY = false) :
    Phys.checkCollisions [gA, gB] prev =
      ([gA, gB], [(gA.id, gB.id)],
        [⟨gA.id, gB.id,
          if (gA.id, gB.id) ∈ prev then .stay else .enter, false⟩]) ∧
    Phys.checkCollisions [gX, gY] [(gA.id, gB.id)] =
      ([gX, gY], [], [⟨gA.id, gB.id, .exit, false⟩]) := by
  have hflag : Phys.triggerFlag gA gB = false := by
    simp [Phys.triggerFlag, hA, hB, hTA, hTB]
  have hres : Phys.resolveCollision [gA, gB] gA.id gB.id = [gA, gB] := by
    refine Phys.resolveCollision_one_missing [gA, gB] gA.id gB.id ?_
    rcases hRb with h | h
    · left
      intro go hgo
      have hga : gA = go := by
        simpa [Phys.findGO, List.find?] using hgo
      rw [← hga]
      exact h
    · right
      intro go hgo
      have hne : (gA.id == gB.id) = false := beq_eq_false_iff_ne.mpr hab
      have hgb : gB = go := by
        simpa [Phys.findGO, List.find?, hne] using hgo
      rw [← hgb]
      exact h
  constructor
  · rw [Phys.checkCollisions_two_hit gA gB cA cB prev hA hAe hB hBe hhit]
    rcases hprev with hp | hp <;> subst hp <;>
      simp [hTA, hTB, hres, Phys.triggerCollisionEvent, hflag]
  · rw [Phys.checkCollisions_two_nohit gX gY cX cY [(gA.id, gB.id)] hX hXe hY hYe hmiss]
    have hne : (gX.id == gB.id) = false := by
      rw [hXid]
      exact beq_eq_false_iff_ne.mpr hab
    have hfx : Phys.findGO [gX, gY] gA.id = some gX := by
      simp [Phys.findGO, List.find?, hXid]
    have hfy : Phys.findGO [gX, gY] gB.id = some gY := by
      simp [Phys.findGO, List.find?, hne, hYid]
    have hflagX : Phys.triggerFlag gX gY = false := by
      simp [Phys.triggerFlag, hX, hY, hTX, hTY]
    simp [hfx, hfy, Phys.triggerCollisionEvent, hXid, hYid, hflagX]

namespace Phys

/-- A unit-mass dynamic rigidbody with x-velocity `vx` and default drag
values. -/
def rbv (vx : ℝ) : RigidbodyData :=
  ⟨true, 1, 0.1, 0.1, 1, false, ⟨vx, 0⟩, 0, ⟨0, 0⟩, 0⟩

/-- Witness object for C8: box collider plus rigidbody at x = 10. -/
noncomputable def goBrb : PGameObject :=
  .mk 1 ⟨⟨10, 0⟩, 0, ⟨1, 1⟩, ⟨0, 0⟩, 0⟩
    [.collider boxColliderW, .rigidbody (rbv 0)] none

/-- The boxes of `goA` and `goBrb` overlap. -/
theorem overlap_goBrb :
    checkCollision goA boxColliderW goBrb boxColliderW = true := by
  simp only [checkCollision, boxCheckCollision, getWorldBounds, goA, goBrb,
    mkBoxGO, boxColliderW, PGameObject.worldPosition, PGameObject.transform,
    Vector2.add]
  norm_num

end Phys

/-- Witness for C8: object 0 (collider only, no Rigidbody) overlapping
object 1 (collider plus rigidbody) while the pair is already in the
persistent set produces an unchanged world and exactly the collision stay
event; the following step with object 1 moved away fires exactly the
collision exit event, again leaving the world unchanged. -/
theorem missing_rigidbody_skips_resolution_witness :
    Phys.checkCollisions [Phys.goA, Phys.goBrb] [(0, 1)] =
      ([Phys.goA, Phys.goBrb], [(0, 1)], [⟨0, 1, .stay, false⟩]) ∧
    Phys.checkCollisions [Phys.goA, Phys.goBfar] [(0, 1)] =
      ([Phys.goA, Phys.goBfar], [], [⟨0, 1, .exit, false⟩]) := by
  have h := missing_rigidbody_skips_resolution Phys.goA Phys.goBrb Phys.goA
    Phys.goBfar Phys.boxColliderW Phys.boxColliderW Phys.boxColliderW
    Phys.boxColliderW [(0, 1)] (by decide) rfl rfl rfl rfl rfl rfl
    (Or.inl rfl) Phys.overlap_goBrb (Or.inr rfl) rfl rfl rfl rfl rfl rfl
    rfl rfl Phys.overlap_far
  refine ⟨?_, h.2⟩
  simpa [show Phys.goA.id = 0 from rfl, show Phys.goBrb.id = 1 from rfl]
    using h.1

namespace Phys

/-- Normalizing a positive x-axis vector yields the unit x vector. -/
theorem normalized_xpos (d : ℝ) (hd : 0 < d) :
    Vector2.normalized ⟨d, 0⟩ = ⟨1, 0⟩ := by
  have hm : Vector2.magnitude ⟨d, 0⟩ = d := by
    unfold Vector2.magnitude
    rw [show d * d + 0 * 0 = d ^ 2 by ring]
    exact Real.sqrt_sq hd.le
  unfold Vector2.normalized
  rw [hm, if_pos hd]
  unfold Vector2.divide
  simp [div_self hd.ne']

/-- Scenario A, object A: box collider and unit-mass rigidbody at the
origin moving right at 10. -/
noncomputable def goPA : PGameObject :=
  .mk 0 ⟨⟨0, 0⟩, 0, ⟨1, 1⟩, ⟨0, 0⟩, 0⟩
    [.collider boxColliderW, .rigidbody (rbv 10)] none

/-- Scenario A, object B: box collider and unit-mass rigidbody at x = 10
moving left at 10 (closing relative velocity along X). -/
noncomputable def goPB : PGameObject :=
  .mk 1 ⟨⟨10, 0⟩, 0, ⟨1, 1⟩, ⟨0, 0⟩, 0⟩
    [.collider boxColliderW, .rigidbody (rbv (-10))] none

/-- Object A after the integration phase of one step with dt = 1/100:
gravity adds 9.8 to the y velocity and drag scales both components by
0.999. -/
noncomputable def goPAmid : PGameObject :=
  .mk 0 ⟨⟨0, 0⟩, 0, ⟨1, 1⟩, ⟨999 / 100, 48951 / 5000⟩, 0⟩
    [.collider boxColliderW,
     .rigidbody ⟨true, 1, 0.1, 0.1, 1, false, ⟨999 / 100, 48951 / 5000⟩, 0, ⟨0, 0⟩, 0⟩] none

/-- Object B after the integration phase. -/
noncomputable def goPBmid : PGameObject :=
  .mk 1 ⟨⟨10, 0⟩, 0, ⟨1, 1⟩, ⟨-(999 / 100), 48951 / 5000⟩, 0⟩
    [.collider boxColliderW,
     .rigidbody ⟨true, 1, 0.1, 0.1, 1, false, ⟨-(999 / 100), 48951 / 5000⟩, 0, ⟨0, 0⟩, 0⟩] none

/-- Object A after the full step: the impulse reflects the x velocity from
9.99 to −5.994. -/
noncomputable def goPAafter : PGameObject :=
  .mk 0 ⟨⟨0, 0⟩, 0, ⟨1, 1⟩, ⟨999 / 100, 48951 / 5000⟩, 0⟩
    [.collider boxColliderW,
     .rigidbody ⟨true, 1, 0.1, 0.1, 1, false, ⟨-(2997 / 500), 48951 / 5000⟩, 0, ⟨0, 0⟩, 0⟩] none

/-- Object B after the full step: the opposite impulse reflects the x
velocity from −9.99 to 5.994. -/
noncomputable def goPBafter : PGameObject :=
  .mk 1 ⟨⟨10, 0⟩, 0, ⟨1, 1⟩, ⟨-(999 / 100), 48951 / 5000⟩, 0⟩
    [.collider boxColliderW,
     .rigidbody ⟨true, 1, 0.1, 0.1, 1, false, ⟨2997 / 500, 48951 / 5000⟩, 0, ⟨0, 0⟩, 0⟩] none

/-- Integration of object A. -/
theorem integrate_goPA :
    updateGO [goPA, goPB] 0 (integrateGO (1 / 100)) = [goPAmid, goPB] := by
  simp only [updateGO, List.map_cons, List.map_nil, goPA, goPB, goPAmid,
    PGameObject.id, integrateGO, getRigidbodyComp, rigidbodyOf, List.findSome?, rbv,
    RigidbodyData.addForce, RigidbodyData.clearForces, gravity,
    Vector2.multiply, Vector2.add, Vector2.divide, PGameObject.setTransform,
    PGameObject.setComps, PGameObject.transform, PGameObject.comps,
    updateFirstRigidbody, replaceFirstRb]
  norm_num

/-- Integration of object B. -/
theorem integrate_goPB :
    updateGO [goPAmid, goPB] 1 (integrateGO (1 / 100)) = [goPAmid, goPBmid] := by
  simp only [updateGO, List.map_cons, List.map_nil, goPB, goPAmid, goPBmid,
    PGameObject.id, integrateGO, getRigidbodyComp, rigidbodyOf, List.findSome?, rbv,
    RigidbodyData.addForce, RigidbodyData.clearForces, gravity,
    Vector2.multiply, Vector2.add, Vector2.divide, PGameObject.setTransform,
    PGameObject.setComps, PGameObject.transform, PGameObject.comps,
    updateFirstRigidbody, replaceFirstRb]
  norm_num

/-- The impulse resolution of the overlapping pair: the collision normal is
the unit x vector, the closing velocity along it is −19.98, and the
restitution-scaled equal-and-opposite impulses reflect both x
velocities. -/
theorem resolve_goP :
    resolveCollision [goPAmid, goPBmid] 0 1 = [goPAafter, goPBafter] := by
  have hnorm : (goPBmid.transform.position.subtract
      goPAmid.transform.position).normalized = ⟨1, 0⟩ := by
    have h1 : goPBmid.transform.position.subtract goPAmid.transform.position
        = ⟨10, 0⟩ := by
      simp [goPBmid, goPAmid, PGameObject.transform, Vector2.subtract]
    rw [h1]
    exact normalized_xpos 10 (by norm_num)
  unfold resolveCollision
  rw [show findGO [goPAmid, goPBmid] 0 = some goPAmid from rfl,
    show findGO [goPAmid, goPBmid] 1 = some goPBmid from rfl]
  simp only [goPAmid, goPBmid, getRigidbodyComp, rigidbodyOf, List.findSome?,
    PGameObject.transform] at hnorm ⊢
  rw [hnorm]
  simp only [Vector2.subtract, Vector2.dot, Vector2.multiply, Vector2.add,
    Vector2.divide, RigidbodyData.addImpulse, updateGO, updateFirstRigidbody,
    replaceFirstRb, PGameObject.setComps, PGameObject.id, PGameObject.comps,
    List.map_cons, List.map_nil, goPAafter, goPBafter]
  norm_num

end Phys

/-- C3 (E2E scenario A): two overlapping non-trigger 50×50 box colliders
with unit-mass non-kinematic rigidbodies closing along X at ±10, stepped
once with dt = 1/100.  The step fires exactly one collision (non-trigger)
enter event for the pair, and `resolveCollision` — using the normalized
position-difference normal `(1, 0)`, the fixed restitution 0.8 and the
harmonic mass combination `1/(1/1 + 1/1)` — applies equal-and-opposite
impulses that reflect the sign of both x velocities (9.99 to −5.994 and
−9.99 to 5.994), not merely zeroing them; gravity only changes the y
components, equally on both. -/
theorem physics_scenario_A :
    Phys.update (1 / 100) [0, 1] [Phys.goPA, Phys.goPB] [] =
      ([Phys.goPAafter, Phys.goPBafter], [(0, 1)], [⟨0, 1, .enter, false⟩]) ∧
    (Phys.getRigidbodyComp Phys.goPA).map (fun rb => rb.velocity.x) = some 10 ∧
    (Phys.getRigidbodyComp Phys.goPAafter).map (fun rb => rb.velocity.x)
        = some (-(2997 / 500)) ∧
    (Phys.getRigidbodyComp Phys.goPB).map (fun rb => rb.velocity.x) = some (-10) ∧
    (Phys.getRigidbodyComp Phys.goPBafter).map (fun rb => rb.velocity.x)
        = some (2997 / 500) := by
  have hover : Phys.checkCollision Phys.goPAmid Phys.boxColliderW
      Phys.goPBmid Phys.boxColliderW = true := by
    simp only [Phys.checkCollision, Phys.boxCheckCollision, Phys.getWorldBounds,
      Phys.goPAmid, Phys.goPBmid, Phys.boxColliderW, Phys.PGameObject.worldPosition,
      Phys.PGameObject.transform, Phys.Vector2.add]
    norm_num
  have hcc := Phys.checkCollisions_two_hit Phys.goPAmid Phys.goPBmid
    Phys.boxColliderW Phys.boxColliderW [] rfl rfl rfl rfl hover
  refine ⟨?_, rfl, rfl, rfl, rfl⟩
  show Phys.checkCollisions
      (List.foldl (fun w i => Phys.updateGO w i (Phys.integrateGO (1 / 100)))
        [Phys.goPA, Phys.goPB] [0, 1]) [] = _
  rw [List.foldl_cons, List.foldl_cons, List.foldl_nil,
    Phys.integrate_goPA, Phys.integrate_goPB, hcc]
  simp only [show Phys.goPAmid.id = 0 from rfl, show Phys.goPBmid.id = 1 from rfl,
    show Phys.boxColliderW.isTrigger = false from rfl, Bool.not_false,
    Bool.and_self, eq_self_iff_true, if_true, List.not_mem_nil, if_false,
    List.filterMap_nil, List.append_nil]
  rw [Phys.resolve_goP]
  simp only [Phys.triggerCollisionEvent,
    show Phys.goPAmid.id = 0 from rfl, show Phys.goPBmid.id = 1 from rfl,
    show Phys.triggerFlag Phys.goPAmid Phys.goPBmid = false from rfl]

/-- C9: the shape collision predicate is not symmetric.  For every
box-shaped collider `b` and circle-shaped collider `c`,
`b.checkCollision(c)` is false — `BoxCollider.checkCollision` handles only
box arguments and falls through to `return false` — even when
`c.checkCollision(b)` is true; consequently the physics pairwise test
(which evaluates `a.collider.checkCollision(b.collider)` for list order
`i < j`) detects the contact exactly when the circle's entry precedes the
box's in the collected collider list. -/
theorem collider_asymmetry (gB gC : Phys.PGameObject) (cB cC : Phys.ColliderData)
    (w h r : ℝ)
    (hBs : cB.shape = .box w h) (hCs : cC.shape = .circle r)
    (hB : Phys.getColliderComp gB = some cB) (hBe : cB.enabled = true)
    (hC : Phys.getColliderComp gC = some cC) (hCe : cC.enabled = true)
    (hdet : Phys.checkCollision gC cC gB cB = true) :
    Phys.checkCollision gB cB gC cC = false ∧
    (Phys.checkCollisions [gB, gC] []).2.1 = [] ∧
    (Phys.checkCollisions [gB, gC] []).2.2 = [] ∧
    (Phys.checkCollisions [gC, gB] []).2.1 = [(gC.id, gB.id)] ∧
    (Phys.checkCollisions [gC, gB] []).2.2 =
      [⟨gC.id, gB.id, .enter, Phys.triggerFlag gC gB⟩] := by
  have h1 : Phys.checkCollision gB cB gC cC = false := by
    simp only [Phys.checkCollision, hBs, Phys.boxCheckCollision, hCs]
  have hno := Phys.checkCollisions_two_nohit gB gC cB cC [] hB hBe hC hCe h1
  have hyes := Phys.checkCollisions_two_hit gC gB cC cB [] hC hCe hB hBe hdet
  refine ⟨h1, ?_, ?_, ?_, ?_⟩
  · rw [hno]
  · rw [hno]
    simp
  · rw [hyes]
  · rw [hyes]
    simp [Phys.triggerCollisionEvent]

namespace Phys

/-- An enabled non-trigger circle collider of radius 25 and zero offset. -/
def circColliderW : ColliderData := ⟨.circle 25, ⟨0, 0⟩, false, true⟩

/-- Witness circle GameObject at the origin. -/
noncomputable def goCirc : PGameObject :=
  .mk 2 ⟨⟨0, 0⟩, 0, ⟨1, 1⟩, ⟨0, 0⟩, 0⟩ [.collider circColliderW] none

/-- The circle at the origin detects the box at the origin. -/
theorem circle_detects_box :
    checkCollision goCirc circColliderW goA boxColliderW = true := by
  simp only [checkCollision, circColliderW, circleCheckCollision,
    getWorldBounds, goCirc, goA, mkBoxGO, boxColliderW,
    PGameObject.worldPosition, PGameObject.transform, Vector2.add,
    Vector2.distance, Vector2.subtract, Vector2.magnitude]
  norm_num [min_def, max_def, Real.sqrt_zero]

end Phys

/-- Witness for C9: a circle at the origin and a box at the origin overlap
under the circle's predicate; the box's predicate denies it, so the
box-first ordering detects nothing while the circle-first ordering fires
the enter event. -/
theorem collider_asymmetry_witness :
    Phys.checkCollision Phys.goA Phys.boxColliderW Phys.goCirc Phys.circColliderW
        = false ∧
    (Phys.checkCollisions [Phys.goA, Phys.goCirc] []).2.1 = [] ∧
    (Phys.checkCollisions [Phys.goA, Phys.goCirc] []).2.2 = [] ∧
    (Phys.checkCollisions [Phys.goCirc, Phys.goA] []).2.1 = [(2, 0)] ∧
    (Phys.checkCollisions [Phys.goCirc, Phys.goA] []).2.2 =
      [⟨2, 0, .enter, Phys.triggerFlag Phys.goCirc Phys.goA⟩] :=
  collider_asymmetry Phys.goA Phys.goCirc Phys.boxColliderW Phys.circColliderW
    50 50 25 rfl rfl rfl rfl rfl rfl Phys.circle_detects_box

namespace Phys

/-- Modelled from the claim's wording (for comparison with the code's
collection): the first attached **enabled** collider in component
insertion order. -/
def firstEnabledCollider (go : PGameObject) : Option ColliderData :=
  go.comps.findSome? (fun cp =>
    match cp with
    | .collider c => if c.enabled then some c else none
    | _ => none)

/-- A disabled 50×50 box collider. -/
def disabledBox : ColliderData := ⟨.box 50 50, ⟨0, 0⟩, false, false⟩

/-- A GameObject whose first collider is disabled and whose second collider
is enabled. -/
noncomputable def goTwoColliders : PGameObject :=
  .mk 3 ⟨⟨0, 0⟩, 0, ⟨1, 1⟩, ⟨0, 0⟩, 0⟩
    [.collider disabledBox, .collider boxColliderW] none

/-- Its enabled second box would overlap the box of `goA`. -/
theorem twoColliders_would_hit :
    checkCollision goTwoColliders boxColliderW goA boxColliderW = true := by
  simp only [checkCollision, boxCheckCollision, getWorldBounds, goTwoColliders,
    goA, mkBoxGO, boxColliderW, PGameObject.worldPosition,
    PGameObject.transform, Vector2.add]
  norm_num

end Phys

/-- Counterexample for C10 as stated: the broad phase examines only the
first attached collider and drops the GameObject entirely when that
collider is disabled — it does not collect the first *enabled* collider.
A GameObject whose first collider is disabled and whose enabled second
collider would overlap `goA`'s box contributes nothing: no pair is
recorded and no event fires, although the claim's collected collider (the
first enabled one) exists and collides. -/
theorem broadphase_first_enabled_counterexample :
    Phys.collectColliders [Phys.goTwoColliders, Phys.goA]
        = [(Phys.goA, Phys.boxColliderW)] ∧
    Phys.firstEnabledCollider Phys.goTwoColliders = some Phys.boxColliderW ∧
    (Phys.checkCollisions [Phys.goTwoColliders, Phys.goA] []).2.1 = [] ∧
    (Phys.checkCollisions [Phys.goTwoColliders, Phys.goA] []).2.2 = [] ∧
    Phys.checkCollision Phys.goTwoColliders Phys.boxColliderW Phys.goA
      Phys.boxColliderW = true := by
  have hcol : Phys.collectColliders [Phys.goTwoColliders, Phys.goA]
      = [(Phys.goA, Phys.boxColliderW)] := rfl
  refine ⟨hcol, rfl, ?_, ?_, Phys.twoColliders_would_hit⟩ <;>
    simp only [Phys.checkCollisions, hcol, Phys.allPairs, List.map_nil,
      List.nil_append, Phys.pairScan, List.filterMap_nil, List.append_nil]

namespace Phys

/-- Whether a component is a collider. -/
def isColliderComp : PComponent → Bool
  | .collider _ => true
  | _ => false

/-- Keep the first collider of a component list and drop every later
collider, leaving all other components in place. -/
def keepFirstCollider : List PComponent → List PComponent
  | [] => []
  | .collider c :: rest => .collider c :: rest.filter (fun cp => !isColliderComp cp)
  | cp :: rest => cp :: keepFirstCollider rest

/-- Remove every collider after the first from a GameObject. -/
noncomputable def dropExtraColliders (go : PGameObject) : PGameObject :=
  go.setComps (keepFirstCollider go.comps)

/-- setComps leaves the id. -/
theorem setComps_id (go : PGameObject) (cs : List PComponent) :
    (go.setComps cs).id = go.id := by
  cases go
  rfl

/-- setComps leaves the transform. -/
theorem setComps_transform (go : PGameObject) (cs : List PComponent) :
    (go.setComps cs).transform = go.transform := by
  cases go
  rfl

/-- setComps installs the given component list. -/
theorem setComps_comps (go : PGameObject) (cs : List PComponent) :
    (go.setComps cs).comps = cs := by
  cases go
  rfl

/-- setComps leaves the world position (it depends only on the transform
and the parent chain). -/
theorem setComps_worldPosition (go : PGameObject) (cs : List PComponent) :
    (go.setComps cs).worldPosition = go.worldPosition := by
  cases go with
  | mk i t c p => cases p <;> rfl

/-- dropExtraColliders leaves the id. -/
theorem dropExtra_id (go : PGameObject) : (dropExtraColliders go).id = go.id :=
  setComps_id ..

/-- dropExtraColliders leaves the transform. -/
theorem dropExtra_transform (go : PGameObject) :
    (dropExtraColliders go).transform = go.transform :=
  setComps_transform ..

/-- dropExtraColliders leaves the world position. -/
theorem dropExtra_worldPosition (go : PGameObject) :
    (dropExtraColliders go).worldPosition = go.worldPosition :=
  setComps_worldPosition ..

/-- Filtering the colliders out does not change the first rigidbody. -/
theorem findSome?_rigidbodyOf_filter (l : List PComponent) :
    (l.filter (fun cp => !isColliderComp cp)).findSome? rigidbodyOf =
      l.findSome? rigidbodyOf := by
  induction l with
  | nil => rfl
  | cons cp rest ih =>
      cases cp with
      | collider c =>
          simp [List.filter_cons,
            show (!isColliderComp (PComponent.collider c)) = false from rfl,
            rigidbodyOf, List.findSome?_cons, ih]
      | rigidbody r =>
          simp [List.filter_cons,
            show (!isColliderComp (PComponent.rigidbody r)) = true from rfl,
            rigidbodyOf, List.findSome?_cons]
      | script s =>
          simp [List.filter_cons,
            show (!isColliderComp (PComponent.script s)) = true from rfl,
            rigidbodyOf, List.findSome?_cons, ih]

/-- Dropping extra colliders does not change the first collider. -/
theorem findSome?_colliderOf_keep (l : List PComponent) :
    (keepFirstCollider l).findSome? colliderOf = l.findSome? colliderOf := by
  induction l with
  | nil => rfl
  | cons cp rest ih =>
      cases cp <;> simp [keepFirstCollider, colliderOf, List.findSome?_cons, ih]

/-- Dropping extra colliders does not change the first rigidbody. -/
theorem findSome?_rigidbodyOf_keep (l : List PComponent) :
    (keepFirstCollider l).findSome? rigidbodyOf = l.findSome? rigidbodyOf := by
  induction l with
  | nil => rfl
  | cons cp rest ih =>
      cases cp <;> simp [keepFirstCollider, rigidbodyOf, List.findSome?_cons, ih,
        findSome?_rigidbodyOf_filter]

/-- dropExtraColliders does not change `getComponent(Collider)`. -/
theorem getColliderComp_dropExtra (go : PGameObject) :
    getColliderComp (dropExtraColliders go) = getColliderComp go := by
  unfold getColliderComp dropExtraColliders
  rw [setComps_comps, findSome?_colliderOf_keep]

/-- dropExtraColliders does not change `getComponent(Rigidbody)`. -/
theorem getRigidbodyComp_dropExtra (go : PGameObject) :
    getRigidbodyComp (dropExtraColliders go) = getRigidbodyComp go := by
  unfold getRigidbodyComp dropExtraColliders
  rw [setComps_comps, findSome?_rigidbodyOf_keep]

/-- Replacing the first rigidbody commutes with filtering colliders out. -/
theorem replaceFirstRb_filter (l : List PComponent) (f : RigidbodyData → RigidbodyData) :
    replaceFirstRb (l.filter (fun cp => !isColliderComp cp)) f =
      (replaceFirstRb l f).filter (fun cp => !isColliderComp cp) := by
  induction l with
  | nil => rfl
  | cons cp rest ih =>
      cases cp with
      | collider c =>
          simp [List.filter_cons,
            show (!isColliderComp (PComponent.collider c)) = false from rfl,
            replaceFirstRb, ih]
      | rigidbody r =>
          simp [List.filter_cons,
            show (!isColliderComp (PComponent.rigidbody r)) = true from rfl,
            show ∀ r', (!isColliderComp (PComponent.rigidbody r')) = true from fun _ => rfl,
            replaceFirstRb]
      | script s =>
          simp [List.filter_cons,
            show (!isColliderComp (PComponent.script s)) = true from rfl,
            replaceFirstRb, ih]

/-- Replacing the first rigidbody commutes with dropping extra colliders. -/
theorem replaceFirstRb_keep (l : List PComponent) (f : RigidbodyData → RigidbodyData) :
    replaceFirstRb (keepFirstCollider l) f = keepFirstCollider (replaceFirstRb l f) := by
  induction l with
  | nil => rfl
  | cons cp rest ih =>
      cases cp <;> simp [keepFirstCollider, replaceFirstRb, ih, replaceFirstRb_filter]

/-- updateFirstRigidbody commutes with dropExtraColliders. -/
theorem updateFirstRigidbody_dropExtra (go : PGameObject)
    (f : RigidbodyData → RigidbodyData) :
    updateFirstRigidbody (dropExtraColliders go) f =
      dropExtraColliders (updateFirstRigidbody go f) := by
  cases go with
  | mk i t cs p =>
      simp [updateFirstRigidbody, dropExtraColliders, PGameObject.setComps,
        PGameObject.comps, replaceFirstRb_keep]

/-- The geometric predicate ignores extra colliders: it reads only the two
colliders' data and the transforms/world positions. -/
theorem checkCollision_dropExtra (g1 : PGameObject) (c1 : ColliderData)
    (g2 : PGameObject) (c2 : ColliderData) :
    checkCollision (dropExtraColliders g1) c1 (dropExtraColliders g2) c2 =
      checkCollision g1 c1 g2 c2 := by
  unfold checkCollision boxCheckCollision circleCheckCollision getWorldBounds
  simp only [dropExtra_transform, dropExtra_worldPosition]

/-- The trigger test ignores extra colliders. -/
theorem triggerFlag_dropExtra (a b : PGameObject) :
    triggerFlag (dropExtraColliders a) (dropExtraColliders b) = triggerFlag a b := by
  simp [triggerFlag, getColliderComp_dropExtra]

/-- Event dispatch ignores extra colliders. -/
theorem triggerCollisionEvent_dropExtra (a b : PGameObject) (k : EventKind) :
    triggerCollisionEvent (dropExtraColliders a) (dropExtraColliders b) k =
      triggerCollisionEvent a b k := by
  simp [triggerCollisionEvent, dropExtra_id, triggerFlag_dropExtra]

/-- Registry lookup commutes with dropping extra colliders. -/
theorem findGO_map_dropExtra (world : List PGameObject) (i : Nat) :
    findGO (world.map dropExtraColliders) i =
      (findGO world i).map dropExtraColliders := by
  induction world with
  | nil => rfl
  | cons go rest ih =>
      rcases h : (go.id == i) with _ | _
      · simp only [List.map_cons, findGO, List.find?, dropExtra_id, h]
        simpa [findGO] using ih
      · simp [findGO, List.find?, dropExtra_id, h]

/-- updateGO commutes with dropping extra colliders whenever the per-object
mutation does. -/
theorem updateGO_map_dropExtra (world : List PGameObject) (i : Nat)
    (f : PGameObject → PGameObject)
    (hcomm : ∀ go, f (dropExtraColliders go) = dropExtraColliders (f go)) :
    updateGO (world.map dropExtraColliders) i f =
      (updateGO world i f).map dropExtraColliders := by
  unfold updateGO
  rw [List.map_map, List.map_map]
  refine List.map_congr_left ?_
  intro go _
  show (if ((dropExtraColliders go).id == i) = true then f (dropExtraColliders go)
      else dropExtraColliders go) =
    dropExtraColliders (if (go.id == i) = true then f go else go)
  rw [dropExtra_id]
  by_cases h : (go.id == i) = true
  · rw [if_pos h, if_pos h, hcomm]
  · rw [if_neg h, if_neg h]

/-- resolveCollision commutes with dropping extra colliders: it consults
only the first rigidbodies and the transforms. -/
theorem resolveCollision_map_dropExtra (world : List PGameObject) (a b : Nat) :
    resolveCollision (world.map dropExtraColliders) a b =
      (resolveCollision world a b).map dropExtraColliders := by
  unfold resolveCollision
  rw [findGO_map_dropExtra, findGO_map_dropExtra]
  cases hfa : findGO world a with
  | none => cases hfb : findGO world b <;> simp
  | some ago =>
      cases hfb : findGO world b with
      | none => simp
      | some bgo =>
          simp only [Option.map_some']
          rw [getRigidbodyComp_dropExtra, getRigidbodyComp_dropExtra]
          cases hra : getRigidbodyComp ago with
          | none => cases hrb : getRigidbodyComp bgo <;> simp
          | some aRb =>
              cases hrb : getRigidbodyComp bgo with
              | none => simp
              | some bRb =>
                  by_cases hkin : (!aRb.isKinematic && !bRb.isKinematic) = true
                  · simp only [hkin, if_true, dropExtra_transform]
                    by_cases hsep : 0 < Vector2.dot (bRb.velocity.subtract aRb.velocity)
                        (bgo.transform.position.subtract ago.transform.position).normalized
                    · rw [if_pos hsep, if_pos hsep]
                    · rw [if_neg hsep, if_neg hsep]
                      rw [updateGO_map_dropExtra _ _ _
                          (fun go => updateFirstRigidbody_dropExtra go _),
                        updateGO_map_dropExtra _ _ _
                          (fun go => updateFirstRigidbody_dropExtra go _)]
                  · simp only [hkin, if_false, Bool.false_eq_true]

/-- The collected pair with its GameObject replaced by the collider-pruned
version. -/
noncomputable def dropFst (gc : PGameObject × ColliderData) :
    PGameObject × ColliderData :=
  (dropExtraColliders gc.1, gc.2)

/-- Collider collection commutes with dropping extra colliders. -/
theorem collectColliders_map_dropExtra (world : List PGameObject) :
    collectColliders (world.map dropExtraColliders) =
      (collectColliders world).map dropFst := by
  induction world with
  | nil => rfl
  | cons go rest ih =>
      simp only [List.map_cons, collectColliders, List.flatMap_cons,
        getColliderComp_dropExtra, List.map_append] at ih ⊢
      rw [ih]
      cases hc : getColliderComp go with
      | none => rfl
      | some c => by_cases he : c.enabled <;> simp [he, dropFst]

/-- allPairs commutes with mapping. -/
theorem allPairs_map {α β : Type} (f : α → β) (l : List α) :
    allPairs (l.map f) = (allPairs l).map (fun ab => (f ab.1, f ab.2)) := by
  induction l with
  | nil => rfl
  | cons x xs ih =>
      simp [allPairs, ih, List.map_map, Function.comp]

/-- The pairwise scan commutes with dropping extra colliders: the mutated
world maps pointwise and the pair keys and events are unchanged. -/
theorem pairScan_map_dropExtra (prev : List (Nat × Nat))
    (pairs : List ((PGameObject × ColliderData) × (PGameObject × ColliderData)))
    (world : List PGameObject) (newPairs : List (Nat × Nat)) (events : List PEvent) :
    pairScan prev (pairs.map (fun ab => (dropFst ab.1, dropFst ab.2)))
        (world.map dropExtraColliders) newPairs events =
      ((pairScan prev pairs world newPairs events).1.map dropExtraColliders,
        (pairScan prev pairs world newPairs events).2.1,
        (pairScan prev pairs world newPairs events).2.2) := by
  induction pairs generalizing world newPairs events with
  | nil => rfl
  | cons pr rest ih =>
      obtain ⟨⟨ago, ac⟩, ⟨bgo, bc⟩⟩ := pr
      simp only [List.map_cons, pairScan, dropFst, checkCollision_dropExtra,
        dropExtra_id, triggerCollisionEvent_dropExtra]
      by_cases hhit : checkCollision ago ac bgo bc = true
      · simp only [hhit, if_true]
        by_cases htr : (!ac.isTrigger && !bc.isTrigger) = true
        · simp only [htr, if_true, resolveCollision_map_dropExtra]
          exact ih ..
        · simp only [htr, if_false, Bool.false_eq_true]
          exact ih ..
      · simp only [hhit, if_false, Bool.false_eq_true]
        exact ih ..

/-- checkCollisions ignores every collider after the first on each
GameObject: pruning them changes neither the recorded pair keys nor the
dispatched events, and the mutated world is the pointwise pruning of the
original mutated world. -/
theorem checkCollisions_map_dropExtra (world : List PGameObject)
    (prev : List (Nat × Nat)) :
    checkCollisions (world.map dropExtraColliders) prev =
      ((checkCollisions world prev).1.map dropExtraColliders,
        (checkCollisions world prev).2.1,
        (checkCollisions world prev).2.2) := by
  set s := pairScan prev (allPairs (collectColliders world)) world [] [] with hs
  have lhs_eq : checkCollisions (world.map dropExtraColliders) prev =
      (s.1.map dropExtraColliders, s.2.1,
        s.2.2 ++ prev.filterMap (fun pk =>
          if pk ∈ s.2.1 then none
          else
            match findGO (s.1.map dropExtraColliders) pk.1,
                findGO (s.1.map dropExtraColliders) pk.2 with
            | some a, some b => some (triggerCollisionEvent a b .exit)
            | _, _ => none)) := by
    simp only [checkCollisions]
    rw [collectColliders_map_dropExtra, allPairs_map, pairScan_map_dropExtra, ← hs]
  have rhs_eq : checkCollisions world prev =
      (s.1, s.2.1,
        s.2.2 ++ prev.filterMap (fun pk =>
          if pk ∈ s.2.1 then none
          else
            match findGO s.1 pk.1, findGO s.1 pk.2 with
            | some a, some b => some (triggerCollisionEvent a b .exit)
            | _, _ => none)) := by
    simp only [checkCollisions, ← hs]
  rw [lhs_eq, rhs_eq]
  refine congrArg₂ Prod.mk rfl (congrArg₂ Prod.mk rfl ?_)
  refine congrArg₂ HAppend.hAppend rfl ?_
  refine List.filterMap_congr ?_
  intro pk _
  by_cases hmem : pk ∈ s.2.1
  · rw [if_pos hmem, if_pos hmem]
  · rw [if_neg hmem, if_neg hmem]
    rw [findGO_map_dropExtra, findGO_map_dropExtra]
    cases h1 : findGO s.1 pk.1 <;> cases h2 : findGO s.1 pk.2 <;>
      simp [triggerCollisionEvent_dropExtra]

/-- The collider collection in closed form: exactly the first attached
collider of each GameObject, kept only when enabled. -/
theorem collectColliders_eq (world : List PGameObject) :
    collectColliders world =
      world.filterMap (fun go =>
        (getColliderComp go).bind
          (fun c => if c.enabled then some (go, c) else none)) := by
  induction world with
  | nil => rfl
  | cons go rest ih =>
      simp only [collectColliders, List.flatMap_cons, List.filterMap_cons] at ih ⊢
      rw [ih]
      cases hc : getColliderComp go with
      | none => simp
      | some c => by_cases he : c.enabled = true <;> simp [he]

end Phys

/-- C10 (amended): in the physics broad phase only the first attached
Collider of each GameObject (in component insertion order) is examined,
and it is collected exactly when it is enabled — a disabled first collider
suppresses the GameObject entirely, even if a later collider is enabled.
Colliders after the first never participate: pruning them from every
GameObject changes neither the recorded pair keys nor the dispatched
enter/stay/exit events, and the impulse-resolved world is the pointwise
pruning of the original one. -/
theorem broadphase_first_collider_only (world : List Phys.PGameObject)
    (prev : List (Nat × Nat)) :
    Phys.collectColliders world =
      world.filterMap (fun go =>
        (Phys.getColliderComp go).bind
          (fun c => if c.enabled then some (go, c) else none)) ∧
    Phys.checkCollisions (world.map Phys.dropExtraColliders) prev =
      ((Phys.checkCollisions world prev).1.map Phys.dropExtraColliders,
        (Phys.checkCollisions world prev).2.1,
        (Phys.checkCollisions world prev).2.2) :=
  ⟨Phys.collectColliders_eq world, Phys.checkCollisions_map_dropExtra world prev⟩


